import Mathlib

/-!
Verification of the PyBaMM model-serialisation subsystem
(src/pybamm/expression_tree/operations/serialise.py).

The development shallowly embeds the `Serialise` class: the JSON encoders
`_SymbolEncoder.default` and `_MeshEncoder.default`, the dynamic class
resolution `_get_pybamm_class`, the post-order reconstruction functions
`_reconstruct_epression_tree`, `_reconstruct_symbol` and
`_reconstruct_mesh`, and the facade operations `save_model` / `load_model`.

Python dictionaries produced by the encoders are embedded as `RawNode`
values; the in-place mutation performed by the reconstruction functions is
embedded by explicit state passing: each reconstruction function returns
the reconstructed object together with the final state (`PostNode`) of the
record it was given, whose entries may hold either still-raw records or
already-reconstructed live objects (`PVal`).

Symbol classes themselves (`to_json`, `_from_json`, `deserialise`,
evaluation) live outside the serialise module; they are modelled from the
spec where marked.
-/

namespace PybammSerialise

/-- Modelled from the spec: the closed universe of expression-node variants
(spec section 3: constant, time, state vector, non-commutative binary
operators, explicit time integral with its auxiliary `initial_condition`
tree, and the Event wrapper).  Numeric values are embedded as integers. -/
inductive Sym : Type where
  | scalar (value : Int)
  | time
  | stateVector (idx : Nat)
  | addition (l r : Sym)
  | subtraction (l r : Sym)
  | multiplication (l r : Sym)
  | explicitTimeIntegral (child : Sym) (initial_condition : Sym)
  | event (name : String) (eventType : Nat) (expr : Sym)
deriving DecidableEq

/-- Modelled from the spec: a spatial sub-mesh exposes a flat attribute
snapshot (edges, coordinate system) with no nested children. -/
structure SubMesh : Type where
  edges : List Int
  coord_sys : String
deriving DecidableEq

/-- Modelled from the spec: a mesh is a mapping from domain-key (ordered
tuple of domain names) to SubMesh; `pybamm.Mesh` subclasses `dict`, so the
iteration order of `node.items()` is the insertion order of this list. -/
structure Mesh : Type where
  entries : List (List String × SubMesh)
deriving DecidableEq

/-- Objects produced by `_reconstruct_symbol`: a `_from_json` call returns
an expression node, an event, a mesh or a sub-mesh depending on the class
that the type tag resolved to. -/
inductive PyObj : Type where
  | sym (s : Sym)
  | mesh (m : Mesh)
  | subMesh (sm : SubMesh)
deriving DecidableEq

/-- Modelled from the spec: the variant-specific attribute set written by
each `to_json` implementation (spec section 4.1, flat snapshot excluding
children). -/
inductive Attrs : Type where
  | scalarA (value : Int)
  | timeA
  | stateVectorA (idx : Nat)
  | binaryA (name : String)
  | etiA
  | eventA (name : String) (eventType : Nat)
  | meshA
  | subMeshA (edges : List Int) (coord_sys : String)
deriving DecidableEq

/-- One JSON record (Python dict) as produced by the encoders or read back
from a file.  Fields mirror the dict keys used in serialise.py:
`py/object`, `py/id`, the `to_json` attribute payload, and the optional
`children`, `initial_condition`, `expression` and `sub_meshes` entries
(a missing dict key is embedded as `none`). -/
inductive RawNode : Type where
  | mk (pyObject : String) (pyId : Nat) (attrs : Attrs)
      (children : Option (List RawNode))
      (initial_condition : Option RawNode)
      (expression : Option RawNode)
      (sub_meshes : Option (List (String × RawNode)))

/-- Projection of the `py/object` type tag of a record. -/
def RawNode.pyObject : RawNode → String
  | RawNode.mk tag _ _ _ _ _ _ => tag

/-- Projection of the `children` entry of a record. -/
def RawNode.children : RawNode → Option (List RawNode)
  | RawNode.mk _ _ _ c _ _ _ => c

/-- Projection of the `initial_condition` entry of a record. -/
def RawNode.initial_condition : RawNode → Option RawNode
  | RawNode.mk _ _ _ _ ic _ _ => ic

/-- Projection of the `expression` entry of a record. -/
def RawNode.expression : RawNode → Option RawNode
  | RawNode.mk _ _ _ _ _ e _ => e

/-- Projection of the `sub_meshes` entry of a record. -/
def RawNode.sub_meshes : RawNode → Option (List (String × RawNode))
  | RawNode.mk _ _ _ _ _ _ s => s

/-- Value held in a dict slot during reconstruction: either the raw record
that was parsed from the file, or the live object that the in-place update
`node[...] = obj` wrote over it. -/
inductive PVal : Type where
  | raw (n : RawNode)
  | obj (o : PyObj)

/-- State of a record at and after the `_reconstruct_symbol` call: the same
keys as `RawNode`, but slots that the reconstruction loops overwrite may
now hold live objects.  `initial_condition` is never overwritten by the
traversal, so it keeps its raw type. -/
structure PostNode : Type where
  pyObject : String
  pyId : Nat
  attrs : Attrs
  children : Option (List PVal)
  initial_condition : Option RawNode
  expression : Option PVal
  sub_meshes : Option (List (String × PVal))

/-- Inclusion of a raw record into the mutable-record state: every slot
still holds its raw value.  In Python both are one and the same dict. -/
def rawToPost : RawNode → PostNode
  | RawNode.mk tag pid attrs ch ic ex sub =>
    { pyObject := tag, pyId := pid, attrs := attrs,
      children := ch.map (List.map PVal.raw),
      initial_condition := ic,
      expression := ex.map PVal.raw,
      sub_meshes := sub.map (List.map (fun kv => (kv.1, PVal.raw kv.2))) }

/-- Python exceptions raised by the serialise module and by the collaborator
code it calls. -/
inductive PyErr : Type where
  | notImplementedError (msg : String)
  | typeError (msg : String)
  | keyError (key : String)
  | attributeError (moduleName attr : String)
  | unboundLocalError
  | arityError (clsName : String) (expected actual : Nat)
deriving DecidableEq

/-- Text of the Python exception message, used to talk about which names an
error message mentions. -/
def errText : PyErr → String
  | PyErr.notImplementedError m => m
  | PyErr.typeError m => m
  | PyErr.keyError k => k
  | PyErr.attributeError m a =>
      (("module ") ++ m ++ (" has no attribute ") ++ a)
  | PyErr.unboundLocalError =>
      ("local variable module referenced before assignment")
  | PyErr.arityError c e a =>
      (c ++ (" expects ") ++ (toString e) ++ (" children, got ") ++ (toString a))

/-- Character-list test that `needle` is an initial segment of `hay`. -/
def charsHavePre : List Char → List Char → Bool
  | [], _ => true
  | _ :: _, [] => false
  | a :: as, b :: bs => a == b && charsHavePre as bs

/-- Character-list substring test, scanning every suffix of the haystack. -/
def charsContain (needle : List Char) : List Char → Bool
  | [] => charsHavePre needle []
  | b :: bs => charsHavePre needle (b :: bs) || charsContain needle bs

/-- Python substring operator `needle in hay` on strings. -/
def strContains (hay needle : String) : Bool :=
  charsContain needle.data hay.data

/-- Python `str.split` on a single separator character, on char lists; the
accumulator holds the current (reversed) chunk. -/
def splitCharAux (sep : Char) : List Char → List Char → List String
  | [], acc => [String.mk acc.reverse]
  | c :: rest, acc =>
    if c == sep then String.mk acc.reverse :: splitCharAux sep rest []
    else splitCharAux sep rest (c :: acc)

/-- Python `tag.split(".")`. -/
def splitDots (s : String) : List String :=
  splitCharAux (Char.ofNat 46) s.data []

/-- Python `".".join(parts)`. -/
def joinDots : List String → String
  | [] => ("")
  | [x] => x
  | x :: y :: rest => x ++ (".") ++ joinDots (y :: rest)

/-- Concrete classes that a type tag can resolve to.  Model classes carry
their import path so that `deserialise` can record which class was used. -/
inductive PyClass : Type where
  | scalarC
  | timeC
  | stateVectorC
  | additionC
  | subtractionC
  | multiplicationC
  | explicitTimeIntegralC
  | eventC
  | meshC
  | subMeshC
  | modelC (path : String)
deriving DecidableEq

/-- Modelled from the spec: the importable Python environment seen by
`importlib.import_module` / `getattr` — the Type Registry of spec section
4.3, populated with every concrete variant of the embedded universe plus
the battery-model classes used by `load_model`. -/
def pythonModules : List (String × List (String × PyClass)) :=
  [(("pybamm"),
    [(("Scalar"), PyClass.scalarC),
     (("Time"), PyClass.timeC),
     (("StateVector"), PyClass.stateVectorC),
     (("Addition"), PyClass.additionC),
     (("Subtraction"), PyClass.subtractionC),
     (("Multiplication"), PyClass.multiplicationC),
     (("ExplicitTimeIntegral"), PyClass.explicitTimeIntegralC),
     (("Event"), PyClass.eventC),
     (("Mesh"), PyClass.meshC),
     (("SubMesh"), PyClass.subMeshC),
     (("BaseBatteryModel"), PyClass.modelC ("pybamm.BaseBatteryModel"))]),
   (("pybamm.lithium_ion"),
    [(("SPM"), PyClass.modelC ("pybamm.lithium_ion.SPM"))])]

/-- Embedding of `Serialise._get_pybamm_class` applied to a type tag: split
the tag on dots, import the module part, `getattr` the class part.  A
failed import is caught and printed, leaving the local `module` unbound, so
the subsequent `getattr(module, parts[-1])` raises `UnboundLocalError`; a
missing attribute on an imported module raises `AttributeError`. -/
def getPybammClassOfTag (tag : String) : Except PyErr PyClass :=
  let parts := splitDots tag
  let moduleName := joinDots parts.dropLast
  let clsName := parts.getLastD ("")
  match pythonModules.lookup moduleName with
  | none => Except.error PyErr.unboundLocalError
  | some classes =>
    match classes.lookup clsName with
    | none => Except.error (PyErr.attributeError moduleName clsName)
    | some c => Except.ok c

/-- Embedding of `Serialise._get_pybamm_class` on a record: the class is
looked up from the `py/object` entry of the snippet. -/
def getPybammClass (snippet : PostNode) : Except PyErr PyClass :=
  getPybammClassOfTag snippet.pyObject

/-- Embedding of `Serialise._SymbolEncoder.default` (symbol branch and
event branch).  Every symbol record carries the type tag, the identity
marker `py/id` (an arbitrary address map `ids`), the `to_json` attribute
payload, and a `children` list; the explicit-time-integral variant
additionally writes its `initial_condition` tree as a sibling entry; an
event record carries an `expression` entry instead of `children`. -/
def symbolEncoderDefault (ids : Sym → Nat) : Sym → RawNode
  | Sym.scalar v =>
    RawNode.mk ("pybamm.Scalar") (ids (Sym.scalar v)) (Attrs.scalarA v)
      (some []) none none none
  | Sym.time =>
    RawNode.mk ("pybamm.Time") (ids Sym.time) Attrs.timeA
      (some []) none none none
  | Sym.stateVector i =>
    RawNode.mk ("pybamm.StateVector") (ids (Sym.stateVector i))
      (Attrs.stateVectorA i) (some []) none none none
  | Sym.addition a b =>
    RawNode.mk ("pybamm.Addition") (ids (Sym.addition a b))
      (Attrs.binaryA ("+"))
      (some [symbolEncoderDefault ids a, symbolEncoderDefault ids b])
      none none none
  | Sym.subtraction a b =>
    RawNode.mk ("pybamm.Subtraction") (ids (Sym.subtraction a b))
      (Attrs.binaryA ("-"))
      (some [symbolEncoderDefault ids a, symbolEncoderDefault ids b])
      none none none
  | Sym.multiplication a b =>
    RawNode.mk ("pybamm.Multiplication") (ids (Sym.multiplication a b))
      (Attrs.binaryA ("*"))
      (some [symbolEncoderDefault ids a, symbolEncoderDefault ids b])
      none none none
  | Sym.explicitTimeIntegral c ic =>
    RawNode.mk ("pybamm.ExplicitTimeIntegral")
      (ids (Sym.explicitTimeIntegral c ic)) Attrs.etiA
      (some [symbolEncoderDefault ids c])
      (some (symbolEncoderDefault ids ic)) none none
  | Sym.event n ty e =>
    RawNode.mk ("pybamm.Event") (ids (Sym.event n ty e)) (Attrs.eventA n ty)
      none none (some (symbolEncoderDefault ids e)) none

/-- Embedding of the sub-mesh branch of `Serialise._MeshEncoder.default`. -/
def meshEncoderSubMesh (smid : SubMesh → Nat) (sm : SubMesh) : RawNode :=
  RawNode.mk ("pybamm.SubMesh") (smid sm) (Attrs.subMeshA sm.edges sm.coord_sys)
    none none none none

/-- Embedding of the mesh branch of `Serialise._MeshEncoder.default`: the
`sub_meshes` mapping keeps exactly the entries whose domain key is a
single domain name not containing the substring `ghost cell`, keyed by
that name. -/
def meshEncoderDefault (mid : Nat) (smid : SubMesh → Nat) (m : Mesh) : RawNode :=
  RawNode.mk ("pybamm.Mesh") mid Attrs.meshA none none none
    (some (m.entries.filterMap (fun kv =>
      if kv.1.length == 1 && !(strContains (kv.1.headD ("")) ("ghost cell"))
      then some (kv.1.headD (""), meshEncoderSubMesh smid kv.2)
      else none)))

end PybammSerialise

namespace PybammSerialise

mutual

/-- Structural size of a raw record, used as the termination measure of the
reconstruction functions. -/
def rawNodeSize : RawNode → Nat
  | RawNode.mk _ _ _ ch ic ex sub =>
    1 + optListSize ch + optNodeSize ic + optNodeSize ex + optKeyedSize sub

/-- Structural size of an optional raw record slot. -/
def optNodeSize : Option RawNode → Nat
  | none => 0
  | some n => 1 + rawNodeSize n

/-- Structural size of an optional raw children list. -/
def optListSize : Option (List RawNode) → Nat
  | none => 0
  | some l => 1 + nodeListSize l

/-- Structural size of a raw children list. -/
def nodeListSize : List RawNode → Nat
  | [] => 0
  | n :: rest => 1 + rawNodeSize n + nodeListSize rest

/-- Structural size of an optional keyed raw sub-mesh list. -/
def optKeyedSize : Option (List (String × RawNode)) → Nat
  | none => 0
  | some l => 1 + keyedListSize l

/-- Structural size of a keyed raw sub-mesh list. -/
def keyedListSize : List (String × RawNode) → Nat
  | [] => 0
  | kv :: rest => 1 + rawNodeSize kv.2 + keyedListSize rest

end

/-- Raw-record content of a dict slot: live objects contribute nothing. -/
def pvalRawSize : PVal → Nat
  | PVal.raw n => rawNodeSize n
  | PVal.obj _ => 0

/-- Raw-record content of a children list of slots. -/
def pvalListRawSize : List PVal → Nat
  | [] => 0
  | v :: rest => pvalRawSize v + pvalListRawSize rest

/-- Raw-record content of an optional slot. -/
def pvalOptRawSize : Option PVal → Nat
  | none => 0
  | some v => pvalRawSize v

/-- Raw-record content of a keyed sub-mesh list of slots. -/
def pvalKeyListRawSize : List (String × PVal) → Nat
  | [] => 0
  | kv :: rest => pvalRawSize kv.2 + pvalKeyListRawSize rest

/-- Raw-record content still reachable from a mutable record: the measure
that shrinks as reconstruction replaces raw sub-records by live objects. -/
def postRawSize (p : PostNode) : Nat :=
  (match p.children with | none => 0 | some l => pvalListRawSize l)
  + optNodeSize p.initial_condition
  + pvalOptRawSize p.expression
  + (match p.sub_meshes with | none => 0 | some l => pvalKeyListRawSize l)

theorem pvalListRawSize_map_obj (objs : List PyObj) :
    pvalListRawSize (objs.map PVal.obj) = 0 := by
  induction objs with
  | nil => rfl
  | cons o rest ih => simp [pvalListRawSize, pvalRawSize, ih]

theorem pvalOptRawSize_map_raw_le (o : Option RawNode) :
    pvalOptRawSize (o.map PVal.raw) ≤ optNodeSize o := by
  cases o with
  | none => simp [pvalOptRawSize, optNodeSize]
  | some n =>
    have h : Option.map PVal.raw (some n) = some (PVal.raw n) := rfl
    rw [h]
    simp only [pvalOptRawSize, pvalRawSize, optNodeSize]
    omega

theorem pvalKeyListRawSize_map_raw_le (l : List (String × RawNode)) :
    pvalKeyListRawSize (l.map (fun kv => (kv.1, PVal.raw kv.2))) ≤ keyedListSize l := by
  induction l with
  | nil => simp [pvalKeyListRawSize, keyedListSize]
  | cons kv rest ih =>
    simp only [List.map_cons, pvalKeyListRawSize, pvalRawSize, keyedListSize]
    omega

theorem pvalKeyOptRawSize_map_raw_le (o : Option (List (String × RawNode))) :
    (match o.map (List.map (fun kv => (kv.1, PVal.raw kv.2))) with
     | none => 0 | some l => pvalKeyListRawSize l) ≤ optKeyedSize o := by
  cases o with
  | none => simp [optKeyedSize]
  | some l =>
    have h : Option.map (List.map (fun kv => (kv.1, PVal.raw kv.2))) (some l)
        = some (l.map (fun kv => (kv.1, PVal.raw kv.2))) := rfl
    rw [h]
    have := pvalKeyListRawSize_map_raw_le l
    simp only [optKeyedSize]
    omega

end PybammSerialise

namespace PybammSerialise

/-- Modelled from the spec: `_from_json` of a leaf variant must not
dereference children positions beyond the (empty) child list; a non-empty
child list is an arity mismatch (spec section 4.1). -/
def leafChildrenCheck (clsName : String) (snippet : PostNode) : Except PyErr Unit :=
  match snippet.children with
  | none => Except.ok ()
  | some [] => Except.ok ()
  | some l => Except.error (PyErr.arityError clsName 0 l.length)

/-- Modelled from the spec: `_from_json` of a binary operator variant reads
`snippet["children"]` (a hard `KeyError` when the entry is missing) and
validates its arity of two already-reconstructed symbols. -/
def fromJsonBinary (clsName : String) (ctor : Sym → Sym → Sym)
    (snippet : PostNode) : Except PyErr PyObj :=
  match snippet.children with
  | none => Except.error (PyErr.keyError ("children"))
  | some [PVal.obj (PyObj.sym a), PVal.obj (PyObj.sym b)] =>
    Except.ok (PyObj.sym (ctor a b))
  | some l =>
    if l.length == 2 then
      Except.error (PyErr.typeError (clsName ++ (" children must be reconstructed symbols")))
    else Except.error (PyErr.arityError clsName 2 l.length)

/-- Sequencing of a fallible function over a list, mirroring a Python list
comprehension or loop: elements are processed left to right and the first
raised exception aborts the whole construction. -/
def mapExcept {α β : Type} (f : α → Except PyErr β) : List α → Except PyErr (List β)
  | [] => Except.ok []
  | a :: rest => do
    let b ← f a
    let bs ← mapExcept f rest
    pure (b :: bs)

/-- Modelled from the spec: `Mesh._from_json` rebuilds the mesh from the
keyed `sub_meshes` mapping (a hard `KeyError` when the entry is missing),
each value being an already-reconstructed sub-mesh keyed by its single
domain name. -/
def fromJsonMesh (snippet : PostNode) : Except PyErr PyObj :=
  match snippet.sub_meshes with
  | none => Except.error (PyErr.keyError ("sub_meshes"))
  | some entries => do
    let ms ← mapExcept (fun kv =>
      match kv.2 with
      | PVal.obj (PyObj.subMesh sm) => Except.ok (([kv.1] : List String), sm)
      | _ => Except.error (PyErr.typeError ("sub_meshes values must be reconstructed sub-meshes")))
      entries
    Except.ok (PyObj.mesh (Mesh.mk ms))

theorem decTreeChildren (tag : String) (pid : Nat) (attrs : Attrs)
    (cs : List RawNode) (ic ex : Option RawNode)
    (sub : Option (List (String × RawNode))) :
    nodeListSize cs < rawNodeSize (RawNode.mk tag pid attrs (some cs) ic ex sub) := by
  simp only [rawNodeSize, optListSize]
  omega

theorem decTreeSymbolA (tag : String) (pid : Nat) (attrs : Attrs)
    (objs : List PyObj) (cs : List RawNode) (ic ex : Option RawNode)
    (sub : Option (List (String × RawNode))) :
    postRawSize
      { pyObject := tag, pyId := pid, attrs := attrs,
        children := some (objs.map PVal.obj), initial_condition := ic,
        expression := ex.map PVal.raw,
        sub_meshes := sub.map (List.map (fun kv => (kv.1, PVal.raw kv.2))) }
    < rawNodeSize (RawNode.mk tag pid attrs (some cs) ic ex sub) := by
  have h1 := pvalKeyOptRawSize_map_raw_le sub
  have h2 := pvalOptRawSize_map_raw_le ex
  simp only [postRawSize, pvalListRawSize_map_obj, rawNodeSize, optListSize] at h1 h2 ⊢
  omega

theorem decTreeExpr (tag : String) (pid : Nat) (attrs : Attrs)
    (e : RawNode) (ic : Option RawNode)
    (sub : Option (List (String × RawNode))) :
    rawNodeSize e < rawNodeSize (RawNode.mk tag pid attrs none ic (some e) sub) := by
  simp only [rawNodeSize, optNodeSize]
  omega

theorem decTreeSymbolB (tag : String) (pid : Nat) (attrs : Attrs)
    (o : PyObj) (e : RawNode) (ic : Option RawNode)
    (sub : Option (List (String × RawNode))) :
    postRawSize
      { pyObject := tag, pyId := pid, attrs := attrs,
        children := none, initial_condition := ic,
        expression := some (PVal.obj o),
        sub_meshes := sub.map (List.map (fun kv => (kv.1, PVal.raw kv.2))) }
    < rawNodeSize (RawNode.mk tag pid attrs none ic (some e) sub) := by
  have h1 := pvalKeyOptRawSize_map_raw_le sub
  simp only [postRawSize, pvalOptRawSize, pvalRawSize, rawNodeSize, optNodeSize] at h1 ⊢
  omega

theorem decTreeSymbolC (tag : String) (pid : Nat) (attrs : Attrs)
    (ic : Option RawNode) (sub : Option (List (String × RawNode))) :
    postRawSize
      { pyObject := tag, pyId := pid, attrs := attrs,
        children := none, initial_condition := ic,
        expression := none,
        sub_meshes := sub.map (List.map (fun kv => (kv.1, PVal.raw kv.2))) }
    < rawNodeSize (RawNode.mk tag pid attrs none ic none sub) := by
  have h1 := pvalKeyOptRawSize_map_raw_le sub
  simp only [postRawSize, pvalOptRawSize, rawNodeSize, optNodeSize] at h1 ⊢
  omega

theorem rawNodeSize_lt_postRawSize (p : PostNode) (icRaw : RawNode)
    (h : p.initial_condition = some icRaw) : rawNodeSize icRaw < postRawSize p := by
  simp only [postRawSize, h, optNodeSize]
  omega

mutual

/-- Embedding of `Serialise._reconstruct_epression_tree`: post-order
traversal.  When the record has a `children` entry, each child is
reconstructed left to right and written back over its list slot; otherwise,
when it has an `expression` entry, that single record is reconstructed and
written back; then `_reconstruct_symbol` is applied to the mutated record.
The function returns the reconstructed object together with the final
state of the record it was given. -/
def _reconstruct_epression_tree (node : RawNode) : Except PyErr (PyObj × PostNode) :=
  match node with
  | RawNode.mk tag pid attrs childrenOpt icOpt exprOpt subOpt =>
    match childrenOpt with
    | some cs => do
      let objs ← reconstructChildren cs
      let post : PostNode :=
        { pyObject := tag, pyId := pid, attrs := attrs,
          children := some (objs.map PVal.obj),
          initial_condition := icOpt,
          expression := exprOpt.map PVal.raw,
          sub_meshes := subOpt.map (List.map (fun kv => (kv.1, PVal.raw kv.2))) }
      let obj ← _reconstruct_symbol post
      pure (obj, post)
    | none =>
      match exprOpt with
      | some e => do
        let eo ← _reconstruct_epression_tree e
        let post : PostNode :=
          { pyObject := tag, pyId := pid, attrs := attrs,
            children := none,
            initial_condition := icOpt,
            expression := some (PVal.obj eo.1),
            sub_meshes := subOpt.map (List.map (fun kv => (kv.1, PVal.raw kv.2))) }
        let obj ← _reconstruct_symbol post
        pure (obj, post)
      | none => do
        let post : PostNode :=
          { pyObject := tag, pyId := pid, attrs := attrs,
            children := none,
            initial_condition := icOpt,
            expression := none,
            sub_meshes := subOpt.map (List.map (fun kv => (kv.1, PVal.raw kv.2))) }
        let obj ← _reconstruct_symbol post
        pure (obj, post)
termination_by (rawNodeSize node, 1)
decreasing_by
  · exact Prod.Lex.left _ _ (decTreeChildren _ _ _ _ _ _ _)
  · exact Prod.Lex.left _ _ (decTreeSymbolA _ _ _ _ _ _ _ _)
  · exact Prod.Lex.left _ _ (decTreeExpr _ _ _ _ _ _)
  · exact Prod.Lex.left _ _ (decTreeSymbolB _ _ _ _ _ _ _)
  · exact Prod.Lex.left _ _ (decTreeSymbolC _ _ _ _ _)

/-- Embedding of the `for i, c in enumerate(node["children"])` loop of
`_reconstruct_epression_tree`: reconstruct each child left to right,
collecting the live objects written back over the list slots. -/
def reconstructChildren (cs : List RawNode) : Except PyErr (List PyObj) :=
  match cs with
  | [] => pure []
  | c :: rest => do
    let co ← _reconstruct_epression_tree c
    let ros ← reconstructChildren rest
    pure (co.1 :: ros)
termination_by (nodeListSize cs, 1)
decreasing_by
  · apply Prod.Lex.left
    simp only [nodeListSize]
    omega
  · apply Prod.Lex.left
    simp only [nodeListSize]
    omega

/-- Embedding of `Serialise._reconstruct_symbol`: resolve the class from
the type tag of the (already mutated) record, then rebuild via the class
`_from_json`. -/
def _reconstruct_symbol (snippet : PostNode) : Except PyErr PyObj := do
  let cls ← getPybammClass snippet
  fromJson cls snippet
termination_by (postRawSize snippet, 1)
decreasing_by
  · exact Prod.Lex.right _ (by omega)

/-- Modelled from the spec: the `_from_json` reconstruction capability of
each registered class (spec section 4.1), dispatched on the resolved
class.  Leaf variants validate an empty child list; binary operators
validate arity two; the explicit-time-integral variant reads its
`initial_condition` sibling entry, reconstructs it and attaches it
post-construction as a sibling of the ordered children; the event variant
rebuilds from its `expression` entry; mesh and sub-mesh variants rebuild
from their flat snapshots.  Model classes expose `deserialise`, not
`_from_json`. -/
def fromJson (cls : PyClass) (snippet : PostNode) : Except PyErr PyObj :=
  match cls, snippet with
  | PyClass.scalarC, _ => do
    leafChildrenCheck ("Scalar") snippet
    match snippet.attrs with
    | Attrs.scalarA v => Except.ok (PyObj.sym (Sym.scalar v))
    | _ => Except.error (PyErr.keyError ("value"))
  | PyClass.timeC, _ => do
    leafChildrenCheck ("Time") snippet
    Except.ok (PyObj.sym Sym.time)
  | PyClass.stateVectorC, _ => do
    leafChildrenCheck ("StateVector") snippet
    match snippet.attrs with
    | Attrs.stateVectorA i => Except.ok (PyObj.sym (Sym.stateVector i))
    | _ => Except.error (PyErr.keyError ("y_slice"))
  | PyClass.additionC, _ => fromJsonBinary ("Addition") Sym.addition snippet
  | PyClass.subtractionC, _ => fromJsonBinary ("Subtraction") Sym.subtraction snippet
  | PyClass.multiplicationC, _ => fromJsonBinary ("Multiplication") Sym.multiplication snippet
  | PyClass.explicitTimeIntegralC,
      PostNode.mk tag pid attrs chOpt icOpt exprOpt subOpt =>
    match chOpt with
    | none => Except.error (PyErr.keyError ("children"))
    | some [PVal.obj (PyObj.sym c)] =>
      match icOpt with
      | none => Except.error (PyErr.keyError ("initial_condition"))
      | some icRaw => do
        let ico ← _reconstruct_epression_tree icRaw
        match ico.1 with
        | PyObj.sym icS =>
          Except.ok (PyObj.sym (Sym.explicitTimeIntegral c icS))
        | _ => Except.error (PyErr.typeError ("initial_condition must be a symbol"))
    | some l =>
      if l.length == 1 then
        Except.error (PyErr.typeError ("ExplicitTimeIntegral children must be reconstructed symbols"))
      else Except.error (PyErr.arityError ("ExplicitTimeIntegral") 1 l.length)
  | PyClass.eventC, _ =>
    match snippet.attrs with
    | Attrs.eventA n ty =>
      (match snippet.expression with
       | some (PVal.obj (PyObj.sym e)) => Except.ok (PyObj.sym (Sym.event n ty e))
       | some _ => Except.error (PyErr.typeError ("expression must be a reconstructed symbol"))
       | none => Except.error (PyErr.keyError ("expression")))
    | _ => Except.error (PyErr.keyError ("name"))
  | PyClass.meshC, _ => fromJsonMesh snippet
  | PyClass.subMeshC, _ =>
    match snippet.attrs with
    | Attrs.subMeshA ed cs => Except.ok (PyObj.subMesh (SubMesh.mk ed cs))
    | _ => Except.error (PyErr.keyError ("edges"))
  | PyClass.modelC p, _ =>
    Except.error (PyErr.attributeError p ("_from_json"))
termination_by (postRawSize snippet, 0)
decreasing_by
  · exact Prod.Lex.left _ _ (rawNodeSize_lt_postRawSize _ _ rfl)

end

/-- Embedding of `Serialise._reconstruct_mesh`: when the record has a
`sub_meshes` entry, each keyed sub-record is passed to
`_reconstruct_symbol` and written back over its slot; then the mutated
record itself is passed to `_reconstruct_symbol`.  As for the tree
reconstruction, the returned pair carries the final state of the given
record. -/
def _reconstruct_mesh (node : RawNode) : Except PyErr (PyObj × PostNode) :=
  match node with
  | RawNode.mk tag pid attrs chOpt icOpt exprOpt subOpt =>
    match subOpt with
    | some entries => do
      let newEntries ← mapExcept (fun kv => do
        let sm ← _reconstruct_symbol (rawToPost kv.2)
        pure (kv.1, PVal.obj sm)) entries
      let post : PostNode :=
        { pyObject := tag, pyId := pid, attrs := attrs,
          children := chOpt.map (List.map PVal.raw),
          initial_condition := icOpt,
          expression := exprOpt.map PVal.raw,
          sub_meshes := some newEntries }
      let m ← _reconstruct_symbol post
      pure (m, post)
    | none => do
      let post := rawToPost (RawNode.mk tag pid attrs chOpt icOpt exprOpt none)
      let m ← _reconstruct_symbol post
      pure (m, post)

end PybammSerialise

namespace PybammSerialise

/-- Modelled from the spec: a live battery model as the facade sees it —
its concrete class path, the boolean discretisation gate, the three
required expression trees, events, mass-matrix pair, bounds, name, options
and the optional geometry/mesh/variables_ attributes (spec sections 3 and
6).  Options and geometry are opaque configuration blobs. -/
structure Model : Type where
  cls : String
  name : String
  options : List (String × String)
  bounds : List (List Int)
  is_discretised : Bool
  concatenated_rhs : Sym
  concatenated_algebraic : Sym
  concatenated_initial_conditions : Sym
  events : List Sym
  mass_matrix : Sym
  mass_matrix_inv : Sym
  geometry : Option (List (String × String))
  mesh : Option Mesh
  variables_ : Option (List (String × Sym))
deriving DecidableEq

/-- Top-level saved record (the `model_json` dict of `save_model` and the
`model_data` dict of `load_model`).  The required keys are always present
in a file written by `save_model`; `py/object`, `mesh`, `geometry` and
`variables_` are optional on read. -/
structure ModelJson : Type where
  pyObject : Option String
  pyId : Nat
  name : String
  options : List (String × String)
  bounds : List (List Int)
  concatenated_rhs : RawNode
  concatenated_algebraic : RawNode
  concatenated_initial_conditions : RawNode
  events : List RawNode
  mass_matrix : RawNode
  mass_matrix_inv : RawNode
  mesh : Option RawNode
  geometry : Option (List (String × String))
  variables_ : Option (List (String × RawNode))

/-- File written by `save_model`: the path passed to `open(..., "w")` and
the serialised record passed to `json.dump`.  A `save_model` call that
raises produces no such value, hence no (even partial) file artifact. -/
structure SavedFile : Type where
  path : String
  content : ModelJson

/-- Embedding of `Serialise.save_model`.  The undiscretised check comes
first and raises before anything is encoded, any file name is chosen or
any file is opened.  `ids`, `mid` and `smid` stand for the arbitrary
memory addresses `id(...)` recorded as the diagnostics-only identity
markers, `modelId` for `id(model)`, and `now` for the formatted
`datetime.now()` string used in the default file name.  Python truthiness
makes an empty mesh dict and an empty variables_ dict behave like absent
ones. -/
def save_model (model : Model) (mesh : Option Mesh)
    (variables_ : Option (List (String × Sym))) (filename : Option String)
    (ids : Sym → Nat) (modelId mid : Nat) (smid : SubMesh → Nat)
    (now : String) : Except PyErr SavedFile :=
  if model.is_discretised == false then
    Except.error (PyErr.notImplementedError
      ("PyBaMM can only serialise a discretised, ready-to-solve model."))
  else
    let base : ModelJson :=
      { pyObject := some model.cls, pyId := modelId,
        name := model.name, options := model.options, bounds := model.bounds,
        concatenated_rhs := symbolEncoderDefault ids model.concatenated_rhs,
        concatenated_algebraic := symbolEncoderDefault ids model.concatenated_algebraic,
        concatenated_initial_conditions :=
          symbolEncoderDefault ids model.concatenated_initial_conditions,
        events := model.events.map (symbolEncoderDefault ids),
        mass_matrix := symbolEncoderDefault ids model.mass_matrix,
        mass_matrix_inv := symbolEncoderDefault ids model.mass_matrix_inv,
        mesh := none, geometry := none, variables_ := none }
    let withMesh : ModelJson :=
      match mesh with
      | some m =>
        if m.entries.isEmpty then base
        else { base with mesh := some (meshEncoderDefault mid smid m) }
      | none => base
    let withVars : ModelJson :=
      match variables_ with
      | some vs =>
        if vs.isEmpty then withMesh
        else { withMesh with
          geometry := model.geometry,
          variables_ := some (vs.map (fun kv => (kv.1, symbolEncoderDefault ids kv.2))) }
      | none => withMesh
    let fname : String :=
      match filename with
      | none => model.name ++ ("_") ++ now
      | some f => f
    Except.ok { path := fname ++ (".json"), content := withVars }

/-- Reconstructed field set (the `recon_model_dict` of `load_model`): every
expression field holds whatever object its reconstruction returned. -/
structure ReconModelDict : Type where
  name : String
  options : List (String × String)
  bounds : List (List Int)
  concatenated_rhs : PyObj
  concatenated_algebraic : PyObj
  concatenated_initial_conditions : PyObj
  events : List PyObj
  mass_matrix : PyObj
  mass_matrix_inv : PyObj
  geometry : Option (List (String × String))
  mesh : Option PyObj
  variables_ : Option (List (String × PyObj))
deriving DecidableEq

/-- Embedding of the `recon_model_dict` construction of `load_model`
(lines 183-223): the required trees and events are reconstructed first, in
source order, then geometry is copied and mesh and variables_ are
reconstructed when present; any reconstruction error propagates. -/
def reconFields (model_data : ModelJson) : Except PyErr ReconModelDict := do
  let rhs ← _reconstruct_epression_tree model_data.concatenated_rhs
  let alg ← _reconstruct_epression_tree model_data.concatenated_algebraic
  let ics ← _reconstruct_epression_tree model_data.concatenated_initial_conditions
  let evs ← mapExcept (fun e => _reconstruct_epression_tree e) model_data.events
  let mm ← _reconstruct_epression_tree model_data.mass_matrix
  let mmi ← _reconstruct_epression_tree model_data.mass_matrix_inv
  let meshObj ← (match model_data.mesh with
    | some mn => do
      let r ← _reconstruct_mesh mn
      pure (some r.1)
    | none => pure (none : Option PyObj))
  let varsObj ← (match model_data.variables_ with
    | some vs => do
      let r ← mapExcept (fun kv => do
        let o ← _reconstruct_epression_tree kv.2
        pure (kv.1, o.1)) vs
      pure (some r)
    | none => pure (none : Option (List (String × PyObj))))
  pure { name := model_data.name, options := model_data.options,
         bounds := model_data.bounds,
         concatenated_rhs := rhs.1, concatenated_algebraic := alg.1,
         concatenated_initial_conditions := ics.1,
         events := evs.map (fun p => p.1),
         mass_matrix := mm.1, mass_matrix_inv := mmi.1,
         geometry := model_data.geometry, mesh := meshObj,
         variables_ := varsObj }

/-- Validation that a reconstructed field is an expression node. -/
def expectSym (fieldName : String) (o : PyObj) : Except PyErr Sym :=
  match o with
  | PyObj.sym s => Except.ok s
  | _ => Except.error (PyErr.typeError (fieldName ++ (" must be a symbol")))

/-- Modelled from the spec: the `deserialise` capability of a battery-model
class (spec section 6) — it accepts the reconstructed field set and returns
a live, ready-to-solve (hence discretised) instance of that class; only
model classes expose it. -/
def deserialise (cls : PyClass) (d : ReconModelDict) : Except PyErr Model :=
  match cls with
  | PyClass.modelC path => do
    let rhs ← expectSym ("concatenated_rhs") d.concatenated_rhs
    let alg ← expectSym ("concatenated_algebraic") d.concatenated_algebraic
    let ics ← expectSym ("concatenated_initial_conditions") d.concatenated_initial_conditions
    let evs ← mapExcept (expectSym ("events")) d.events
    let mm ← expectSym ("mass_matrix") d.mass_matrix
    let mmi ← expectSym ("mass_matrix_inv") d.mass_matrix_inv
    let meshVal ← (match d.mesh with
      | some (PyObj.mesh m) => Except.ok (some m)
      | some _ => Except.error (PyErr.typeError ("mesh must be a mesh"))
      | none => Except.ok (none : Option Mesh))
    let varsVal ← (match d.variables_ with
      | some vs => do
        let r ← mapExcept (fun kv => do
          let s ← expectSym ("variables") kv.2
          pure (kv.1, s)) vs
        pure (some r)
      | none => pure (none : Option (List (String × Sym))))
    Except.ok
      { cls := path, name := d.name, options := d.options, bounds := d.bounds,
        is_discretised := true,
        concatenated_rhs := rhs, concatenated_algebraic := alg,
        concatenated_initial_conditions := ics, events := evs,
        mass_matrix := mm, mass_matrix_inv := mmi,
        geometry := d.geometry, mesh := meshVal, variables_ := varsVal }
  | PyClass.scalarC => Except.error (PyErr.attributeError ("pybamm.Scalar") ("deserialise"))
  | PyClass.timeC => Except.error (PyErr.attributeError ("pybamm.Time") ("deserialise"))
  | PyClass.stateVectorC => Except.error (PyErr.attributeError ("pybamm.StateVector") ("deserialise"))
  | PyClass.additionC => Except.error (PyErr.attributeError ("pybamm.Addition") ("deserialise"))
  | PyClass.subtractionC => Except.error (PyErr.attributeError ("pybamm.Subtraction") ("deserialise"))
  | PyClass.multiplicationC => Except.error (PyErr.attributeError ("pybamm.Multiplication") ("deserialise"))
  | PyClass.explicitTimeIntegralC => Except.error (PyErr.attributeError ("pybamm.ExplicitTimeIntegral") ("deserialise"))
  | PyClass.eventC => Except.error (PyErr.attributeError ("pybamm.Event") ("deserialise"))
  | PyClass.meshC => Except.error (PyErr.attributeError ("pybamm.Mesh") ("deserialise"))
  | PyClass.subMeshC => Except.error (PyErr.attributeError ("pybamm.SubMesh") ("deserialise"))

/-- Embedding of `Serialise.load_model` on an already-parsed file content:
reconstruct every field first, then dispatch — an explicitly supplied
`battery_model` takes precedence and its `deserialise` is used; otherwise
the `py/object` tag recorded in the file selects the class; with neither,
a `TypeError` is raised. -/
def load_model (model_data : ModelJson) (battery_model : Option PyClass) :
    Except PyErr Model := do
  let recon ← reconFields model_data
  match battery_model with
  | some bm => deserialise bm recon
  | none =>
    match model_data.pyObject with
    | some tag => do
      let cls ← getPybammClassOfTag tag
      deserialise cls recon
    | none =>
      Except.error (PyErr.typeError
        ("The PyBaMM battery model to use has not been provided."))

/-- Modelled from the spec: evaluation of an expression node at a point
(t, y) — the observable the round-trip property compares (spec section 8).
The explicit time integral and event wrappers are evaluated through their
sub-trees so that evaluation inspects every reachable node. -/
def evalSym (t : Int) (y : Nat → Int) : Sym → Int
  | Sym.scalar v => v
  | Sym.time => t
  | Sym.stateVector i => y i
  | Sym.addition a b => evalSym t y a + evalSym t y b
  | Sym.subtraction a b => evalSym t y a - evalSym t y b
  | Sym.multiplication a b => evalSym t y a * evalSym t y b
  | Sym.explicitTimeIntegral c ic => evalSym t y c + evalSym t y ic
  | Sym.event _ _ e => evalSym t y e

/-- Evaluation of the solvable content of a model at a point (t, y): the
right-hand side, algebraic part, initial conditions and all event
expressions. -/
def evalModel (m : Model) (t : Int) (y : Nat → Int) :
    Int × Int × Int × List Int :=
  (evalSym t y m.concatenated_rhs,
   evalSym t y m.concatenated_algebraic,
   evalSym t y m.concatenated_initial_conditions,
   m.events.map (evalSym t y))

end PybammSerialise

namespace PybammSerialise

@[simp] theorem exceptBindOk {α β : Type} (a : α) (f : α → Except PyErr β) :
    (Except.ok a >>= f) = f a := rfl

@[simp] theorem exceptBindErr {α β : Type} (e : PyErr) (f : α → Except PyErr β) :
    ((Except.error e : Except PyErr α) >>= f) = Except.error e := rfl

theorem resolveScalar :
    getPybammClassOfTag ("pybamm.Scalar") = Except.ok PyClass.scalarC := rfl

theorem resolveTime :
    getPybammClassOfTag ("pybamm.Time") = Except.ok PyClass.timeC := rfl

theorem resolveStateVector :
    getPybammClassOfTag ("pybamm.StateVector") = Except.ok PyClass.stateVectorC := rfl

theorem resolveAddition :
    getPybammClassOfTag ("pybamm.Addition") = Except.ok PyClass.additionC := rfl

theorem resolveSubtraction :
    getPybammClassOfTag ("pybamm.Subtraction") = Except.ok PyClass.subtractionC := rfl

theorem resolveMultiplication :
    getPybammClassOfTag ("pybamm.Multiplication") = Except.ok PyClass.multiplicationC := rfl

theorem resolveETI :
    getPybammClassOfTag ("pybamm.ExplicitTimeIntegral") =
      Except.ok PyClass.explicitTimeIntegralC := rfl

theorem resolveEvent :
    getPybammClassOfTag ("pybamm.Event") = Except.ok PyClass.eventC := rfl

theorem resolveMesh :
    getPybammClassOfTag ("pybamm.Mesh") = Except.ok PyClass.meshC := rfl

theorem resolveSubMesh :
    getPybammClassOfTag ("pybamm.SubMesh") = Except.ok PyClass.subMeshC := rfl

/-- Final state of an encoded record after the decoder has processed it:
children slots and the event expression slot hold the reconstructed live
objects; the explicit-time-integral sibling keeps its raw record, since
the traversal never overwrites it. -/
def encPost (ids : Sym → Nat) : Sym → PostNode
  | Sym.scalar v =>
    { pyObject := ("pybamm.Scalar"), pyId := ids (Sym.scalar v),
      attrs := Attrs.scalarA v, children := some [],
      initial_condition := none, expression := none, sub_meshes := none }
  | Sym.time =>
    { pyObject := ("pybamm.Time"), pyId := ids Sym.time,
      attrs := Attrs.timeA, children := some [],
      initial_condition := none, expression := none, sub_meshes := none }
  | Sym.stateVector i =>
    { pyObject := ("pybamm.StateVector"), pyId := ids (Sym.stateVector i),
      attrs := Attrs.stateVectorA i, children := some [],
      initial_condition := none, expression := none, sub_meshes := none }
  | Sym.addition a b =>
    { pyObject := ("pybamm.Addition"), pyId := ids (Sym.addition a b),
      attrs := Attrs.binaryA ("+"),
      children := some [PVal.obj (PyObj.sym a), PVal.obj (PyObj.sym b)],
      initial_condition := none, expression := none, sub_meshes := none }
  | Sym.subtraction a b =>
    { pyObject := ("pybamm.Subtraction"), pyId := ids (Sym.subtraction a b),
      attrs := Attrs.binaryA ("-"),
      children := some [PVal.obj (PyObj.sym a), PVal.obj (PyObj.sym b)],
      initial_condition := none, expression := none, sub_meshes := none }
  | Sym.multiplication a b =>
    { pyObject := ("pybamm.Multiplication"), pyId := ids (Sym.multiplication a b),
      attrs := Attrs.binaryA ("*"),
      children := some [PVal.obj (PyObj.sym a), PVal.obj (PyObj.sym b)],
      initial_condition := none, expression := none, sub_meshes := none }
  | Sym.explicitTimeIntegral c ic =>
    { pyObject := ("pybamm.ExplicitTimeIntegral"),
      pyId := ids (Sym.explicitTimeIntegral c ic), attrs := Attrs.etiA,
      children := some [PVal.obj (PyObj.sym c)],
      initial_condition := some (symbolEncoderDefault ids ic),
      expression := none, sub_meshes := none }
  | Sym.event n ty e =>
    { pyObject := ("pybamm.Event"), pyId := ids (Sym.event n ty e),
      attrs := Attrs.eventA n ty, children := none,
      initial_condition := none,
      expression := some (PVal.obj (PyObj.sym e)), sub_meshes := none }

/-- Round trip of a single expression tree: reconstructing an encoded
symbol succeeds and returns the original symbol, together with the mutated
final state of the record. -/
theorem recon_symbolEncoder (ids : Sym → Nat) (s : Sym) :
    _reconstruct_epression_tree (symbolEncoderDefault ids s) =
      Except.ok (PyObj.sym s, encPost ids s) := by
  induction s with
  | scalar v =>
    simp [_reconstruct_epression_tree, reconstructChildren, _reconstruct_symbol,
      getPybammClass, resolveScalar, fromJson, symbolEncoderDefault,
      leafChildrenCheck, encPost]
  | time =>
    simp [_reconstruct_epression_tree, reconstructChildren, _reconstruct_symbol,
      getPybammClass, resolveTime, fromJson, symbolEncoderDefault,
      leafChildrenCheck, encPost]
  | stateVector i =>
    simp [_reconstruct_epression_tree, reconstructChildren, _reconstruct_symbol,
      getPybammClass, resolveStateVector, fromJson, symbolEncoderDefault,
      leafChildrenCheck, encPost]
  | addition a b iha ihb =>
    simp [_reconstruct_epression_tree, reconstructChildren, _reconstruct_symbol,
      getPybammClass, resolveAddition, fromJson, symbolEncoderDefault,
      iha, ihb, fromJsonBinary, encPost]
  | subtraction a b iha ihb =>
    simp [_reconstruct_epression_tree, reconstructChildren, _reconstruct_symbol,
      getPybammClass, resolveSubtraction, fromJson, symbolEncoderDefault,
      iha, ihb, fromJsonBinary, encPost]
  | multiplication a b iha ihb =>
    simp [_reconstruct_epression_tree, reconstructChildren, _reconstruct_symbol,
      getPybammClass, resolveMultiplication, fromJson, symbolEncoderDefault,
      iha, ihb, fromJsonBinary, encPost]
  | explicitTimeIntegral c ic ihc ihic =>
    simp [_reconstruct_epression_tree, reconstructChildren, _reconstruct_symbol,
      getPybammClass, resolveETI, fromJson, symbolEncoderDefault,
      ihc, ihic, encPost]
  | event n ty e ihe =>
    simp [_reconstruct_epression_tree, reconstructChildren, _reconstruct_symbol,
      getPybammClass, resolveEvent, fromJson, symbolEncoderDefault,
      ihe, encPost]

end PybammSerialise

namespace PybammSerialise

@[simp] theorem exceptBindPure {α β : Type} (a : α) (f : α → Except PyErr β) :
    ((pure a : Except PyErr α) >>= f) = f a := rfl

theorem recon_symbol_subMeshEncoder (smid : SubMesh → Nat) (sm : SubMesh) :
    _reconstruct_symbol (rawToPost (meshEncoderSubMesh smid sm)) =
      Except.ok (PyObj.subMesh sm) := by
  cases sm with
  | mk ed cs =>
    simp [meshEncoderSubMesh, rawToPost, _reconstruct_symbol, getPybammClass,
      resolveSubMesh, fromJson]

/-- Entries of a mesh kept by the mesh encoder: single-domain keys whose
name does not contain the substring `ghost cell`, keyed by that name. -/
def keptSubMeshes (m : Mesh) : List (String × SubMesh) :=
  m.entries.filterMap (fun kv =>
    if kv.1.length == 1 && !(strContains (kv.1.headD ("")) ("ghost cell"))
    then some (kv.1.headD (""), kv.2) else none)

/-- Mesh reconstructed from a saved mesh record: the kept entries, each
under its singleton domain key. -/
def meshFiltered (m : Mesh) : Mesh :=
  Mesh.mk ((keptSubMeshes m).map (fun kv => (([kv.1] : List String), kv.2)))

theorem meshEncoder_sub_meshes_eq (mid : Nat) (smid : SubMesh → Nat) (m : Mesh) :
    (meshEncoderDefault mid smid m).sub_meshes =
      some ((keptSubMeshes m).map (fun kv => (kv.1, meshEncoderSubMesh smid kv.2))) := by
  simp only [meshEncoderDefault, RawNode.sub_meshes, keptSubMeshes]
  congr 1
  rw [List.map_filterMap]
  congr 1
  funext kv
  cases hc : (kv.1.length == 1 && !(strContains (kv.1.headD ("")) ("ghost cell"))) with
  | true => simp [hc]
  | false => simp [hc]

theorem mapExcept_encSub (smid : SubMesh → Nat) (l : List (String × SubMesh)) :
    mapExcept (fun kv => do
        let sm ← _reconstruct_symbol (rawToPost kv.2)
        pure (kv.1, PVal.obj sm))
      (l.map (fun kv => (kv.1, meshEncoderSubMesh smid kv.2)))
    = Except.ok (l.map (fun kv => (kv.1, PVal.obj (PyObj.subMesh kv.2)))) := by
  induction l with
  | nil => rfl
  | cons kv rest ih =>
    simp only [List.map_cons, mapExcept]
    rw [recon_symbol_subMeshEncoder]
    simp only [exceptBindOk, exceptBindPure]
    rw [ih]
    simp only [exceptBindOk]
    rfl

theorem mapExcept_validate_subs (l : List (String × SubMesh)) :
    mapExcept (fun kv =>
      match kv.2 with
      | PVal.obj (PyObj.subMesh sm) => Except.ok (([kv.1] : List String), sm)
      | _ => Except.error (PyErr.typeError ("sub_meshes values must be reconstructed sub-meshes")))
      (l.map (fun kv => (kv.1, PVal.obj (PyObj.subMesh kv.2))))
    = Except.ok (l.map (fun kv => (([kv.1] : List String), kv.2))) := by
  induction l with
  | nil => rfl
  | cons kv rest ih =>
    simp only [List.map_cons, mapExcept]
    rw [ih]
    simp only [exceptBindOk]
    rfl

theorem fromJson_meshC (p : PostNode) :
    fromJson PyClass.meshC p = fromJsonMesh p := by
  cases p
  simp [fromJson]

theorem fromJsonMesh_objs (l : List (String × SubMesh)) (tag : String)
    (pid : Nat) (attrs : Attrs) (ch : Option (List PVal))
    (ic : Option RawNode) (ex : Option PVal) :
    fromJsonMesh
      (PostNode.mk tag pid attrs ch ic ex
        (some (l.map (fun kv => (kv.1, PVal.obj (PyObj.subMesh kv.2))))))
    = Except.ok (PyObj.mesh (Mesh.mk (l.map (fun kv => (([kv.1] : List String), kv.2))))) := by
  simp only [fromJsonMesh]
  rw [mapExcept_validate_subs]
  simp only [exceptBindOk]

theorem recon_symbol_mesh_post (mid : Nat) (l : List (String × SubMesh)) :
    _reconstruct_symbol
      (PostNode.mk ("pybamm.Mesh") mid Attrs.meshA none none none
        (some (l.map (fun kv => (kv.1, PVal.obj (PyObj.subMesh kv.2))))))
    = Except.ok (PyObj.mesh (Mesh.mk (l.map (fun kv => (([kv.1] : List String), kv.2))))) := by
  simp only [_reconstruct_symbol, getPybammClass]
  rw [resolveMesh]
  simp only [exceptBindOk]
  rw [fromJson_meshC]
  rw [fromJsonMesh_objs]

/-- Final state of a saved mesh record after `_reconstruct_mesh`: every
kept sub-mesh slot holds its reconstructed live sub-mesh. -/
def encMeshPost (mid : Nat) (smid : SubMesh → Nat) (m : Mesh) : PostNode :=
  PostNode.mk ("pybamm.Mesh") mid Attrs.meshA none none none
    (some ((keptSubMeshes m).map
      (fun kv => (kv.1, PVal.obj (PyObj.subMesh kv.2)))))

theorem recon_meshEncoder (mid : Nat) (smid : SubMesh → Nat) (m : Mesh) :
    _reconstruct_mesh (meshEncoderDefault mid smid m) =
      Except.ok (PyObj.mesh (meshFiltered m), encMeshPost mid smid m) := by
  have henc := meshEncoder_sub_meshes_eq mid smid m
  simp only [meshEncoderDefault, RawNode.sub_meshes, Option.some.injEq] at henc
  simp only [meshEncoderDefault, _reconstruct_mesh, henc]
  rw [mapExcept_encSub]
  simp only [exceptBindOk, Option.map_none']
  rw [show (_reconstruct_symbol
      (PostNode.mk ("pybamm.Mesh") mid Attrs.meshA none none none
        (some ((keptSubMeshes m).map (fun kv => (kv.1, PVal.obj (PyObj.subMesh kv.2)))))))
      = Except.ok (PyObj.mesh (meshFiltered m)) from recon_symbol_mesh_post mid (keptSubMeshes m)]
  simp only [exceptBindOk]
  rfl

end PybammSerialise

namespace PybammSerialise

theorem mapExcept_encTree (ids : Sym → Nat) (l : List Sym) :
    mapExcept (fun e => _reconstruct_epression_tree e) (l.map (symbolEncoderDefault ids))
    = Except.ok (l.map (fun s => (PyObj.sym s, encPost ids s))) := by
  induction l with
  | nil => rfl
  | cons s rest ih =>
    simp only [List.map_cons, mapExcept]
    rw [recon_symbolEncoder]
    simp only [exceptBindOk]
    rw [ih]
    simp only [exceptBindOk]
    rfl

theorem mapExcept_encVars (ids : Sym → Nat) (l : List (String × Sym)) :
    mapExcept (fun kv => do
        let o ← _reconstruct_epression_tree kv.2
        pure (kv.1, o.1))
      (l.map (fun kv => (kv.1, symbolEncoderDefault ids kv.2)))
    = Except.ok (l.map (fun kv => (kv.1, PyObj.sym kv.2))) := by
  induction l with
  | nil => rfl
  | cons kv rest ih =>
    simp only [List.map_cons, mapExcept]
    rw [recon_symbolEncoder]
    simp only [exceptBindOk, exceptBindPure]
    rw [ih]
    simp only [exceptBindOk]
    rfl

@[simp] theorem expectSym_sym (n : String) (s : Sym) :
    expectSym n (PyObj.sym s) = Except.ok s := rfl

theorem mapExcept_expectSym (l : List Sym) :
    mapExcept (expectSym ("events")) (l.map PyObj.sym) = Except.ok l := by
  induction l with
  | nil => rfl
  | cons s rest ih =>
    simp only [List.map_cons, mapExcept, expectSym_sym]
    simp only [exceptBindOk]
    rw [ih]
    simp only [exceptBindOk]
    rfl

theorem mapExcept_expectVars (l : List (String × Sym)) :
    mapExcept (fun kv => do
        let s ← expectSym ("variables") kv.2
        pure (kv.1, s))
      (l.map (fun kv => (kv.1, PyObj.sym kv.2)))
    = Except.ok l := by
  induction l with
  | nil => rfl
  | cons kv rest ih =>
    simp only [List.map_cons, mapExcept, expectSym_sym]
    simp only [exceptBindOk, exceptBindPure]
    rw [ih]
    simp only [exceptBindOk]
    rfl

theorem reconFields_enc (ids : Sym → Nat) (pyObj : Option String) (pid : Nat)
    (nm : String) (opts : List (String × String)) (bnds : List (List Int))
    (rhs alg ics mm mmi : Sym) (evs : List Sym)
    (meshOpt : Option Mesh) (mid : Nat) (smid : SubMesh → Nat)
    (geo : Option (List (String × String))) (varsOpt : Option (List (String × Sym))) :
    reconFields
      { pyObject := pyObj, pyId := pid, name := nm, options := opts, bounds := bnds,
        concatenated_rhs := symbolEncoderDefault ids rhs,
        concatenated_algebraic := symbolEncoderDefault ids alg,
        concatenated_initial_conditions := symbolEncoderDefault ids ics,
        events := evs.map (symbolEncoderDefault ids),
        mass_matrix := symbolEncoderDefault ids mm,
        mass_matrix_inv := symbolEncoderDefault ids mmi,
        mesh := meshOpt.map (meshEncoderDefault mid smid),
        geometry := geo,
        variables_ := varsOpt.map (List.map (fun kv => (kv.1, symbolEncoderDefault ids kv.2))) }
    = Except.ok
      { name := nm, options := opts, bounds := bnds,
        concatenated_rhs := PyObj.sym rhs, concatenated_algebraic := PyObj.sym alg,
        concatenated_initial_conditions := PyObj.sym ics,
        events := evs.map PyObj.sym,
        mass_matrix := PyObj.sym mm, mass_matrix_inv := PyObj.sym mmi,
        geometry := geo,
        mesh := meshOpt.map (fun m => PyObj.mesh (meshFiltered m)),
        variables_ := varsOpt.map (List.map (fun kv => (kv.1, PyObj.sym kv.2))) } := by
  cases meshOpt with
  | none =>
    cases varsOpt with
    | none =>
      simp only [reconFields, Option.map_none']
      rw [recon_symbolEncoder, recon_symbolEncoder, recon_symbolEncoder,
        mapExcept_encTree, recon_symbolEncoder, recon_symbolEncoder]
      simp [List.map_map, Function.comp]
    | some vs =>
      simp only [reconFields, Option.map_none', Option.map_some']
      rw [recon_symbolEncoder, recon_symbolEncoder, recon_symbolEncoder,
        mapExcept_encTree, recon_symbolEncoder, recon_symbolEncoder]
      simp only [exceptBindOk]
      rw [mapExcept_encVars]
      simp [List.map_map, Function.comp]
  | some mm2 =>
    cases varsOpt with
    | none =>
      simp only [reconFields, Option.map_none', Option.map_some']
      rw [recon_symbolEncoder, recon_symbolEncoder, recon_symbolEncoder,
        mapExcept_encTree, recon_symbolEncoder, recon_symbolEncoder]
      simp only [exceptBindOk]
      rw [recon_meshEncoder]
      simp [List.map_map, Function.comp]
    | some vs =>
      simp only [reconFields, Option.map_none', Option.map_some']
      rw [recon_symbolEncoder, recon_symbolEncoder, recon_symbolEncoder,
        mapExcept_encTree, recon_symbolEncoder, recon_symbolEncoder]
      simp only [exceptBindOk]
      rw [recon_meshEncoder]
      simp only [exceptBindOk, exceptBindPure]
      rw [mapExcept_encVars]
      simp [List.map_map, Function.comp]

end PybammSerialise

namespace PybammSerialise

theorem deserialise_enc (path : String) (nm : String)
    (opts : List (String × String)) (bnds : List (List Int))
    (rhs alg ics mm mmi : Sym) (evs : List Sym)
    (meshOpt : Option Mesh) (geo : Option (List (String × String)))
    (varsOpt : Option (List (String × Sym))) :
    deserialise (PyClass.modelC path)
      { name := nm, options := opts, bounds := bnds,
        concatenated_rhs := PyObj.sym rhs, concatenated_algebraic := PyObj.sym alg,
        concatenated_initial_conditions := PyObj.sym ics,
        events := evs.map PyObj.sym,
        mass_matrix := PyObj.sym mm, mass_matrix_inv := PyObj.sym mmi,
        geometry := geo,
        mesh := meshOpt.map PyObj.mesh,
        variables_ := varsOpt.map (List.map (fun kv => (kv.1, PyObj.sym kv.2))) }
    = Except.ok
      { cls := path, name := nm, options := opts, bounds := bnds,
        is_discretised := true,
        concatenated_rhs := rhs, concatenated_algebraic := alg,
        concatenated_initial_conditions := ics, events := evs,
        mass_matrix := mm, mass_matrix_inv := mmi,
        geometry := geo, mesh := meshOpt, variables_ := varsOpt } := by
  cases meshOpt with
  | none =>
    cases varsOpt with
    | none =>
      simp only [deserialise, expectSym_sym, Option.map_none', exceptBindOk]
      rw [mapExcept_expectSym]
      simp only [exceptBindOk, exceptBindPure]
    | some vs =>
      simp only [deserialise, expectSym_sym, Option.map_none', Option.map_some',
        exceptBindOk]
      rw [mapExcept_expectSym]
      simp only [exceptBindOk]
      rw [mapExcept_expectVars]
      simp only [exceptBindOk, exceptBindPure]
  | some mh =>
    cases varsOpt with
    | none =>
      simp only [deserialise, expectSym_sym, Option.map_none', Option.map_some',
        exceptBindOk]
      rw [mapExcept_expectSym]
      simp only [exceptBindOk, exceptBindPure]
    | some vs =>
      simp only [deserialise, expectSym_sym, Option.map_none', Option.map_some',
        exceptBindOk]
      rw [mapExcept_expectSym]
      simp only [exceptBindOk]
      rw [mapExcept_expectVars]
      simp only [exceptBindOk, exceptBindPure]

end PybammSerialise

namespace PybammSerialise

theorem load_enc_content (m : Model) (p : String)
    (hcls : getPybammClassOfTag m.cls = Except.ok (PyClass.modelC p))
    (ids : Sym → Nat) (modelId mid : Nat) (smid : SubMesh → Nat)
    (meshOpt : Option Mesh) (geo : Option (List (String × String)))
    (varsOpt : Option (List (String × Sym))) :
    load_model
      { pyObject := some m.cls, pyId := modelId, name := m.name,
        options := m.options, bounds := m.bounds,
        concatenated_rhs := symbolEncoderDefault ids m.concatenated_rhs,
        concatenated_algebraic := symbolEncoderDefault ids m.concatenated_algebraic,
        concatenated_initial_conditions :=
          symbolEncoderDefault ids m.concatenated_initial_conditions,
        events := m.events.map (symbolEncoderDefault ids),
        mass_matrix := symbolEncoderDefault ids m.mass_matrix,
        mass_matrix_inv := symbolEncoderDefault ids m.mass_matrix_inv,
        mesh := meshOpt.map (meshEncoderDefault mid smid),
        geometry := geo,
        variables_ := varsOpt.map (List.map (fun kv => (kv.1, symbolEncoderDefault ids kv.2))) }
      none
    = Except.ok
      { cls := p, name := m.name, options := m.options, bounds := m.bounds,
        is_discretised := true,
        concatenated_rhs := m.concatenated_rhs,
        concatenated_algebraic := m.concatenated_algebraic,
        concatenated_initial_conditions := m.concatenated_initial_conditions,
        events := m.events,
        mass_matrix := m.mass_matrix, mass_matrix_inv := m.mass_matrix_inv,
        geometry := geo, mesh := meshOpt.map meshFiltered,
        variables_ := varsOpt } := by
  have hrec := reconFields_enc ids (some m.cls) modelId m.name m.options m.bounds
    m.concatenated_rhs m.concatenated_algebraic m.concatenated_initial_conditions
    m.mass_matrix m.mass_matrix_inv m.events meshOpt mid smid geo varsOpt
  have hdes := deserialise_enc p m.name m.options m.bounds
    m.concatenated_rhs m.concatenated_algebraic m.concatenated_initial_conditions
    m.mass_matrix m.mass_matrix_inv m.events (meshOpt.map meshFiltered) geo varsOpt
  simp only [Option.map_map] at hdes
  have hmm : (PyObj.mesh ∘ meshFiltered) = (fun m2 => PyObj.mesh (meshFiltered m2)) := rfl
  rw [hmm] at hdes
  simp only [load_model]
  rw [hrec]
  simp only [exceptBindOk]
  rw [hcls]
  simp only [exceptBindOk]
  exact hdes

end PybammSerialise

namespace PybammSerialise

/-- File name chosen by `save_model`: the supplied name, or the model name
and the current date-time, with the json suffix always appended. -/
def savedPath (m : Model) (fname : Option String) (now : String) : String :=
  (match fname with
   | none => m.name ++ ("_") ++ now
   | some f => f) ++ (".json")

/-- Canonical shape of the record written by `save_model`, parameterised by
the (already truthiness-filtered) optional mesh and variables payloads. -/
def savedContent (m : Model) (ids : Sym → Nat) (modelId mid : Nat)
    (smid : SubMesh → Nat) (meshOpt : Option Mesh)
    (geo : Option (List (String × String)))
    (varsOpt : Option (List (String × Sym))) : ModelJson :=
  { pyObject := some m.cls, pyId := modelId, name := m.name,
    options := m.options, bounds := m.bounds,
    concatenated_rhs := symbolEncoderDefault ids m.concatenated_rhs,
    concatenated_algebraic := symbolEncoderDefault ids m.concatenated_algebraic,
    concatenated_initial_conditions :=
      symbolEncoderDefault ids m.concatenated_initial_conditions,
    events := m.events.map (symbolEncoderDefault ids),
    mass_matrix := symbolEncoderDefault ids m.mass_matrix,
    mass_matrix_inv := symbolEncoderDefault ids m.mass_matrix_inv,
    mesh := meshOpt.map (meshEncoderDefault mid smid),
    geometry := geo,
    variables_ := varsOpt.map (List.map (fun kv => (kv.1, symbolEncoderDefault ids kv.2))) }

/-- Python truthiness of the optional mesh argument: an absent or empty
mesh dict contributes nothing to the saved record. -/
def truthyMesh : Option Mesh → Option Mesh
  | some mm => if mm.entries.isEmpty then none else some mm
  | none => none

/-- Python truthiness of the optional variables argument. -/
def truthyVars : Option (List (String × Sym)) → Option (List (String × Sym))
  | some vs => if vs.isEmpty then none else some vs
  | none => none

/-- Geometry entry written by `save_model`: present only when the
variables argument is truthy. -/
def savedGeo (m : Model) (vars : Option (List (String × Sym))) :
    Option (List (String × String)) :=
  match truthyVars vars with
  | some _ => m.geometry
  | none => none

theorem save_model_eq (m : Model) (msh : Option Mesh)
    (vars : Option (List (String × Sym))) (fname : Option String)
    (ids : Sym → Nat) (modelId mid : Nat) (smid : SubMesh → Nat) (now : String)
    (hdisc : m.is_discretised = true) :
    save_model m msh vars fname ids modelId mid smid now =
      Except.ok
        { path := savedPath m fname now,
          content := savedContent m ids modelId mid smid (truthyMesh msh)
            (savedGeo m vars) (truthyVars vars) } := by
  cases msh with
  | none =>
    cases vars with
    | none =>
      simp only [save_model, hdisc, truthyMesh, truthyVars, savedGeo,
        savedContent, savedPath]
      rfl
    | some vs =>
      cases hv : vs.isEmpty with
      | true =>
        simp only [save_model, hdisc, truthyMesh, truthyVars, savedGeo, hv,
          savedContent, savedPath]
        rfl
      | false =>
        simp only [save_model, hdisc, truthyMesh, truthyVars, savedGeo, hv,
          savedContent, savedPath]
        rfl
  | some mm =>
    cases hme : mm.entries.isEmpty with
    | true =>
      cases vars with
      | none =>
        simp only [save_model, hdisc, truthyMesh, truthyVars, savedGeo, hme,
          savedContent, savedPath]
        rfl
      | some vs =>
        cases hv : vs.isEmpty with
        | true =>
          simp only [save_model, hdisc, truthyMesh, truthyVars, savedGeo, hme, hv,
            savedContent, savedPath]
          rfl
        | false =>
          simp only [save_model, hdisc, truthyMesh, truthyVars, savedGeo, hme, hv,
            savedContent, savedPath]
          rfl
    | false =>
      cases vars with
      | none =>
        simp only [save_model, hdisc, truthyMesh, truthyVars, savedGeo, hme,
          savedContent, savedPath]
        rfl
      | some vs =>
        cases hv : vs.isEmpty with
        | true =>
          simp only [save_model, hdisc, truthyMesh, truthyVars, savedGeo, hme, hv,
            savedContent, savedPath]
          rfl
        | false =>
          simp only [save_model, hdisc, truthyMesh, truthyVars, savedGeo, hme, hv,
            savedContent, savedPath]
          rfl

end PybammSerialise

namespace PybammSerialise

theorem save_load_fields (m : Model) (msh : Option Mesh)
    (vars : Option (List (String × Sym))) (fname : Option String)
    (ids : Sym → Nat) (modelId mid : Nat) (smid : SubMesh → Nat) (now : String)
    (hdisc : m.is_discretised = true)
    (p : String) (hcls : getPybammClassOfTag m.cls = Except.ok (PyClass.modelC p)) :
    ∃ sf m2,
      save_model m msh vars fname ids modelId mid smid now = Except.ok sf ∧
      load_model sf.content none = Except.ok m2 ∧
      m2.cls = p ∧ m2.name = m.name ∧ m2.options = m.options ∧
      m2.bounds = m.bounds ∧ m2.is_discretised = true ∧
      m2.concatenated_rhs = m.concatenated_rhs ∧
      m2.concatenated_algebraic = m.concatenated_algebraic ∧
      m2.concatenated_initial_conditions = m.concatenated_initial_conditions ∧
      m2.events = m.events ∧
      m2.mass_matrix = m.mass_matrix ∧
      m2.mass_matrix_inv = m.mass_matrix_inv := by
  refine ⟨{ path := savedPath m fname now,
            content := savedContent m ids modelId mid smid (truthyMesh msh)
              (savedGeo m vars) (truthyVars vars) },
          { cls := p, name := m.name, options := m.options, bounds := m.bounds,
            is_discretised := true,
            concatenated_rhs := m.concatenated_rhs,
            concatenated_algebraic := m.concatenated_algebraic,
            concatenated_initial_conditions := m.concatenated_initial_conditions,
            events := m.events,
            mass_matrix := m.mass_matrix, mass_matrix_inv := m.mass_matrix_inv,
            geometry := savedGeo m vars,
            mesh := (truthyMesh msh).map meshFiltered,
            variables_ := truthyVars vars },
          save_model_eq m msh vars fname ids modelId mid smid now hdisc,
          load_enc_content m p hcls ids modelId mid smid (truthyMesh msh)
            (savedGeo m vars) (truthyVars vars),
          rfl, rfl, rfl, rfl, rfl, rfl, rfl, rfl, rfl, rfl, rfl⟩

end PybammSerialise

namespace PybammSerialise

theorem charsHavePre_self (l : List Char) : charsHavePre l l = true := by
  induction l with
  | nil => rfl
  | cons c rest ih => simp [charsHavePre, ih]

theorem charsContain_append_self (pre l : List Char) :
    charsContain l (pre ++ l) = true := by
  induction pre with
  | nil =>
    cases l with
    | nil => rfl
    | cons b bs => simp [charsContain, charsHavePre_self]
  | cons c rest ih => simp [charsContain, ih]

theorem strContains_append_self (x y : String) :
    strContains (x ++ y) y = true := by
  simp [strContains, String.data_append, charsContain_append_self]

/-- C2: calling `save_model` on a model whose `is_discretised` flag is
false raises the precondition `NotImplementedError` before any encoding,
any file-name choice or any file write happens — the call produces no
`SavedFile` value at all, hence no (even partial) file artifact. -/
theorem C2_undiscretised_rejected (m : Model) (msh : Option Mesh)
    (vars : Option (List (String × Sym))) (fname : Option String)
    (ids : Sym → Nat) (modelId mid : Nat) (smid : SubMesh → Nat) (now : String)
    (h : m.is_discretised = false) :
    save_model m msh vars fname ids modelId mid smid now =
      Except.error (PyErr.notImplementedError
        ("PyBaMM can only serialise a discretised, ready-to-solve model.")) ∧
    ∀ sf, save_model m msh vars fname ids modelId mid smid now ≠ Except.ok sf := by
  constructor
  · simp [save_model, h]
  · intro sf hc
    simp [save_model, h] at hc

/-- C2 witness: a concrete undiscretised model is rejected. -/
theorem C2_undiscretised_rejected_witness :
    ({ cls := ("pybamm.lithium_ion.SPM"), name := ("test"), options := [],
       bounds := [], is_discretised := false,
       concatenated_rhs := Sym.scalar 1, concatenated_algebraic := Sym.scalar 0,
       concatenated_initial_conditions := Sym.scalar 2, events := [],
       mass_matrix := Sym.scalar 1, mass_matrix_inv := Sym.scalar 1,
       geometry := none, mesh := none, variables_ := none } : Model).is_discretised = false ∧
    save_model
      { cls := ("pybamm.lithium_ion.SPM"), name := ("test"), options := [],
        bounds := [], is_discretised := false,
        concatenated_rhs := Sym.scalar 1, concatenated_algebraic := Sym.scalar 0,
        concatenated_initial_conditions := Sym.scalar 2, events := [],
        mass_matrix := Sym.scalar 1, mass_matrix_inv := Sym.scalar 1,
        geometry := none, mesh := none, variables_ := none }
      none none none (fun _ => 0) 0 0 (fun _ => 0) ("2024_01_01-AM10_00_00") =
      Except.error (PyErr.notImplementedError
        ("PyBaMM can only serialise a discretised, ready-to-solve model.")) :=
  ⟨rfl,
   (C2_undiscretised_rejected
     { cls := ("pybamm.lithium_ion.SPM"), name := ("test"), options := [],
       bounds := [], is_discretised := false,
       concatenated_rhs := Sym.scalar 1, concatenated_algebraic := Sym.scalar 0,
       concatenated_initial_conditions := Sym.scalar 2, events := [],
       mass_matrix := Sym.scalar 1, mass_matrix_inv := Sym.scalar 1,
       geometry := none, mesh := none, variables_ := none }
     none none none (fun _ => 0) 0 0 (fun _ => 0) ("2024_01_01-AM10_00_00") rfl).1⟩

/-- C3 counterexample: decoding a record whose type tag names a module that
cannot be imported fails with `UnboundLocalError` — an error that does not
name the offending tag (neither its class part nor the full tag appears in
the message), refuting the claim that the unresolvable-type error always
names the tag. -/
theorem C3_counterexample :
    getPybammClassOfTag ("nomodule.Foo") = Except.error PyErr.unboundLocalError ∧
    strContains (errText PyErr.unboundLocalError) ("Foo") = false ∧
    strContains (errText PyErr.unboundLocalError) ("nomodule.Foo") = false :=
  ⟨rfl, by decide, by decide⟩

/-- C3 (amended): resolving an unknown tag always fails — it is never
coerced to a fallback class — but the error names the offending tag only
when the module part imports and the class attribute is missing
(`AttributeError` carrying module and class name); when the module itself
cannot be imported, the exception is caught and printed and the subsequent
`getattr` on the unbound local raises `UnboundLocalError`, which does not
name the tag. -/
theorem C3_unknown_tag_fails (tag : String) :
    (pythonModules.lookup (joinDots ((splitDots tag).dropLast)) = none →
       getPybammClassOfTag tag = Except.error PyErr.unboundLocalError ∧
       ∀ c, getPybammClassOfTag tag ≠ Except.ok c) ∧
    (∀ classes, pythonModules.lookup (joinDots ((splitDots tag).dropLast)) = some classes →
       classes.lookup ((splitDots tag).getLastD ("")) = none →
       getPybammClassOfTag tag =
         Except.error (PyErr.attributeError (joinDots ((splitDots tag).dropLast))
           ((splitDots tag).getLastD (""))) ∧
       strContains
         (errText (PyErr.attributeError (joinDots ((splitDots tag).dropLast))
           ((splitDots tag).getLastD ("")))) ((splitDots tag).getLastD ("")) = true ∧
       ∀ c, getPybammClassOfTag tag ≠ Except.ok c) := by
  constructor
  · intro hmod
    have heq : getPybammClassOfTag tag = Except.error PyErr.unboundLocalError := by
      simp only [getPybammClassOfTag, hmod]
    exact ⟨heq, fun c hc => by rw [heq] at hc; cases hc⟩
  · intro classes hmod hcls
    have heq : getPybammClassOfTag tag =
        Except.error (PyErr.attributeError (joinDots ((splitDots tag).dropLast))
          ((splitDots tag).getLastD (""))) := by
      simp only [getPybammClassOfTag, hmod, hcls]
    refine ⟨heq, ?_, fun c hc => by rw [heq] at hc; cases hc⟩
    exact strContains_append_self
      (("module ") ++ (joinDots ((splitDots tag).dropLast)) ++ (" has no attribute "))
      ((splitDots tag).getLastD (""))

/-- C3 witness: both failure shapes at concrete tags — an unimportable
module, and an importable module lacking the class attribute. -/
theorem C3_unknown_tag_fails_witness :
    getPybammClassOfTag ("nomodule.Foo") = Except.error PyErr.unboundLocalError ∧
    getPybammClassOfTag ("pybamm.Nope") =
      Except.error (PyErr.attributeError ("pybamm") ("Nope")) :=
  ⟨((C3_unknown_tag_fails ("nomodule.Foo")).1 rfl).1,
   (((C3_unknown_tag_fails ("pybamm.Nope")).2
      [(("Scalar"), PyClass.scalarC),
       (("Time"), PyClass.timeC),
       (("StateVector"), PyClass.stateVectorC),
       (("Addition"), PyClass.additionC),
       (("Subtraction"), PyClass.subtractionC),
       (("Multiplication"), PyClass.multiplicationC),
       (("ExplicitTimeIntegral"), PyClass.explicitTimeIntegralC),
       (("Event"), PyClass.eventC),
       (("Mesh"), PyClass.meshC),
       (("SubMesh"), PyClass.subMeshC),
       (("BaseBatteryModel"), PyClass.modelC ("pybamm.BaseBatteryModel"))]
      rfl rfl).1)⟩

/-- C4: the explicit-time-integral variant encodes its
`initial_condition` tree as a sibling entry of the record — the ordered
`children` list holds exactly the one operand, unshifted — and decoding
such a record rebuilds the original node, reconstructing the sibling entry
and attaching it post-construction rather than treating it as a child. -/
theorem C4_initial_condition_sibling (ids : Sym → Nat) (c ic : Sym) :
    (symbolEncoderDefault ids (Sym.explicitTimeIntegral c ic)).children =
      some [symbolEncoderDefault ids c] ∧
    (symbolEncoderDefault ids (Sym.explicitTimeIntegral c ic)).initial_condition =
      some (symbolEncoderDefault ids ic) ∧
    _reconstruct_epression_tree (symbolEncoderDefault ids (Sym.explicitTimeIntegral c ic)) =
      Except.ok (PyObj.sym (Sym.explicitTimeIntegral c ic),
        encPost ids (Sym.explicitTimeIntegral c ic)) :=
  ⟨rfl, rfl, recon_symbolEncoder ids (Sym.explicitTimeIntegral c ic)⟩

end PybammSerialise

namespace PybammSerialise

/-- C1: saving a discretised model and loading the file back yields a model
that evaluates identically to the original at every point (t, y) — here
exactly, which is in particular within any floating tolerance: the
right-hand side, algebraic part, initial conditions and every event
expression agree at all (t, y). -/
theorem C1_round_trip_eval (m : Model) (msh : Option Mesh)
    (vars : Option (List (String × Sym))) (fname : Option String)
    (ids : Sym → Nat) (modelId mid : Nat) (smid : SubMesh → Nat) (now : String)
    (p : String)
    (hdisc : m.is_discretised = true)
    (hcls : getPybammClassOfTag m.cls = Except.ok (PyClass.modelC p)) :
    ∃ sf m2,
      save_model m msh vars fname ids modelId mid smid now = Except.ok sf ∧
      load_model sf.content none = Except.ok m2 ∧
      ∀ t y, evalModel m2 t y = evalModel m t y := by
  obtain ⟨sf, m2, hs, hl, _, _, _, _, _, hrhs, halg, hics, hevs, _, _⟩ :=
    save_load_fields m msh vars fname ids modelId mid smid now hdisc p hcls
  refine ⟨sf, m2, hs, hl, fun t y => ?_⟩
  simp [evalModel, hrhs, halg, hics, hevs]

/-- C1 witness: round trip of a concrete discretised model carrying a
non-trivial expression tree, a mesh with a ghost-cell entry and a named
variable. -/
theorem C1_round_trip_eval_witness :
    ({ cls := ("pybamm.lithium_ion.SPM"), name := ("test"), options := [],
       bounds := [[0], [1]], is_discretised := true,
       concatenated_rhs := Sym.subtraction (Sym.stateVector 0) (Sym.scalar 2),
       concatenated_algebraic := Sym.scalar 0,
       concatenated_initial_conditions := Sym.scalar 5,
       events := [Sym.event ("cutoff") 0 Sym.time],
       mass_matrix := Sym.scalar 1, mass_matrix_inv := Sym.scalar 1,
       geometry := none, mesh := none, variables_ := none } : Model).is_discretised = true ∧
    getPybammClassOfTag ("pybamm.lithium_ion.SPM") =
      Except.ok (PyClass.modelC ("pybamm.lithium_ion.SPM")) ∧
    ∃ sf m2,
      save_model
        { cls := ("pybamm.lithium_ion.SPM"), name := ("test"), options := [],
          bounds := [[0], [1]], is_discretised := true,
          concatenated_rhs := Sym.subtraction (Sym.stateVector 0) (Sym.scalar 2),
          concatenated_algebraic := Sym.scalar 0,
          concatenated_initial_conditions := Sym.scalar 5,
          events := [Sym.event ("cutoff") 0 Sym.time],
          mass_matrix := Sym.scalar 1, mass_matrix_inv := Sym.scalar 1,
          geometry := none, mesh := none, variables_ := none }
        (some (Mesh.mk [((["negative electrode"]), SubMesh.mk [0, 1] ("cartesian")),
                        ((["negative electrode ghost cell"]), SubMesh.mk [2] ("cartesian"))]))
        (some [(("voltage"), Sym.stateVector 0)])
        none (fun _ => 0) 0 0 (fun _ => 0) ("2024_01_01-AM10_00_00") = Except.ok sf ∧
      load_model sf.content none = Except.ok m2 ∧
      ∀ t y, evalModel m2 t y = evalModel
        { cls := ("pybamm.lithium_ion.SPM"), name := ("test"), options := [],
          bounds := [[0], [1]], is_discretised := true,
          concatenated_rhs := Sym.subtraction (Sym.stateVector 0) (Sym.scalar 2),
          concatenated_algebraic := Sym.scalar 0,
          concatenated_initial_conditions := Sym.scalar 5,
          events := [Sym.event ("cutoff") 0 Sym.time],
          mass_matrix := Sym.scalar 1, mass_matrix_inv := Sym.scalar 1,
          geometry := none, mesh := none, variables_ := none } t y :=
  ⟨rfl, rfl,
   C1_round_trip_eval
     { cls := ("pybamm.lithium_ion.SPM"), name := ("test"), options := [],
       bounds := [[0], [1]], is_discretised := true,
       concatenated_rhs := Sym.subtraction (Sym.stateVector 0) (Sym.scalar 2),
       concatenated_algebraic := Sym.scalar 0,
       concatenated_initial_conditions := Sym.scalar 5,
       events := [Sym.event ("cutoff") 0 Sym.time],
       mass_matrix := Sym.scalar 1, mass_matrix_inv := Sym.scalar 1,
       geometry := none, mesh := none, variables_ := none }
     (some (Mesh.mk [((["negative electrode"]), SubMesh.mk [0, 1] ("cartesian")),
                     ((["negative electrode ghost cell"]), SubMesh.mk [2] ("cartesian"))]))
     (some [(("voltage"), Sym.stateVector 0)])
     none (fun _ => 0) 0 0 (fun _ => 0) ("2024_01_01-AM10_00_00")
     ("pybamm.lithium_ion.SPM") rfl rfl⟩

/-- C6: decoding the encoding of a subtraction node preserves the order of
the two children — the result is exactly the original `A - B`, and when
`A` and `B` differ it is never the swapped `B - A`. -/
theorem C6_order_preserved (ids : Sym → Nat) (a b : Sym) :
    _reconstruct_epression_tree (symbolEncoderDefault ids (Sym.subtraction a b)) =
      Except.ok (PyObj.sym (Sym.subtraction a b), encPost ids (Sym.subtraction a b)) ∧
    (a ≠ b → ∀ post2,
      _reconstruct_epression_tree (symbolEncoderDefault ids (Sym.subtraction a b)) ≠
        Except.ok (PyObj.sym (Sym.subtraction b a), post2)) := by
  refine ⟨recon_symbolEncoder ids (Sym.subtraction a b), ?_⟩
  intro hab post2 hcontra
  rw [recon_symbolEncoder ids (Sym.subtraction a b)] at hcontra
  simp only [Except.ok.injEq, Prod.mk.injEq, PyObj.sym.injEq,
    Sym.subtraction.injEq] at hcontra
  exact hab hcontra.1.1

/-- C6 witness: the subtraction of two distinct scalars round trips without
the child order being swapped. -/
theorem C6_order_preserved_witness :
    _reconstruct_epression_tree
      (symbolEncoderDefault (fun _ => 0) (Sym.subtraction (Sym.scalar 1) (Sym.scalar 2))) =
      Except.ok (PyObj.sym (Sym.subtraction (Sym.scalar 1) (Sym.scalar 2)),
        encPost (fun _ => 0) (Sym.subtraction (Sym.scalar 1) (Sym.scalar 2))) ∧
    ∀ post2,
      _reconstruct_epression_tree
        (symbolEncoderDefault (fun _ => 0) (Sym.subtraction (Sym.scalar 1) (Sym.scalar 2))) ≠
        Except.ok (PyObj.sym (Sym.subtraction (Sym.scalar 2) (Sym.scalar 1)), post2) :=
  ⟨(C6_order_preserved (fun _ => 0) (Sym.scalar 1) (Sym.scalar 2)).1,
   (C6_order_preserved (fun _ => 0) (Sym.scalar 1) (Sym.scalar 2)).2 (by decide)⟩

end PybammSerialise

namespace PybammSerialise

/-- C5: a composite node record that lacks all of `children`, `expression`
and `sub_meshes` makes decoding fail with the malformed-record `KeyError`
raised by the variant rebuild when it reads its missing structural entry —
`children` for the children-shaped operator variants, `expression` for the
event shape, `sub_meshes` for the mesh shape — and `load_model` surfaces
that error unchanged to its caller: nothing catches it and nothing
substitutes a default. -/
theorem C5_malformed_composite :
    (∀ (tag : String) (pid : Nat) (attrs : Attrs),
       tag ∈ [("pybamm.Addition"), ("pybamm.Subtraction"),
         ("pybamm.Multiplication"), ("pybamm.ExplicitTimeIntegral")] →
       _reconstruct_epression_tree (RawNode.mk tag pid attrs none none none none) =
         Except.error (PyErr.keyError ("children")) ∧
       ∀ (md : ModelJson) (bm : Option PyClass),
         md.concatenated_rhs = RawNode.mk tag pid attrs none none none none →
         load_model md bm = Except.error (PyErr.keyError ("children"))) ∧
    (∀ (pid : Nat) (n : String) (ty : Nat),
       _reconstruct_epression_tree
         (RawNode.mk ("pybamm.Event") pid (Attrs.eventA n ty) none none none none) =
         Except.error (PyErr.keyError ("expression")) ∧
       ∀ (md : ModelJson) (bm : Option PyClass),
         md.concatenated_rhs =
           RawNode.mk ("pybamm.Event") pid (Attrs.eventA n ty) none none none none →
         load_model md bm = Except.error (PyErr.keyError ("expression"))) ∧
    (∀ (pid : Nat) (attrs : Attrs),
       _reconstruct_mesh (RawNode.mk ("pybamm.Mesh") pid attrs none none none none) =
         Except.error (PyErr.keyError ("sub_meshes")) ∧
       ∀ (m : Model) (ids : Sym → Nat) (modelId : Nat) (pyObj : Option String)
         (geo : Option (List (String × String))) (bm : Option PyClass),
         load_model
           { pyObject := pyObj, pyId := modelId, name := m.name,
             options := m.options, bounds := m.bounds,
             concatenated_rhs := symbolEncoderDefault ids m.concatenated_rhs,
             concatenated_algebraic := symbolEncoderDefault ids m.concatenated_algebraic,
             concatenated_initial_conditions :=
               symbolEncoderDefault ids m.concatenated_initial_conditions,
             events := m.events.map (symbolEncoderDefault ids),
             mass_matrix := symbolEncoderDefault ids m.mass_matrix,
             mass_matrix_inv := symbolEncoderDefault ids m.mass_matrix_inv,
             mesh := some (RawNode.mk ("pybamm.Mesh") pid attrs none none none none),
             geometry := geo, variables_ := none }
           bm = Except.error (PyErr.keyError ("sub_meshes"))) := by
  refine ⟨?_, ?_, ?_⟩
  · intro tag pid attrs htag
    have hdec : _reconstruct_epression_tree (RawNode.mk tag pid attrs none none none none) =
        Except.error (PyErr.keyError ("children")) := by
      simp only [List.mem_cons, List.mem_singleton, List.not_mem_nil, or_false] at htag
      rcases htag with rfl | rfl | rfl | rfl
      · simp [_reconstruct_epression_tree, _reconstruct_symbol, getPybammClass,
          resolveAddition, fromJson, fromJsonBinary]
      · simp [_reconstruct_epression_tree, _reconstruct_symbol, getPybammClass,
          resolveSubtraction, fromJson, fromJsonBinary]
      · simp [_reconstruct_epression_tree, _reconstruct_symbol, getPybammClass,
          resolveMultiplication, fromJson, fromJsonBinary]
      · simp [_reconstruct_epression_tree, _reconstruct_symbol, getPybammClass,
          resolveETI, fromJson]
    refine ⟨hdec, ?_⟩
    intro md bm hrhs
    have hre : reconFields md = Except.error (PyErr.keyError ("children")) := by
      simp only [reconFields, hrhs, hdec, exceptBindErr]
    simp only [load_model, hre, exceptBindErr]
  · intro pid n ty
    have hdec : _reconstruct_epression_tree
        (RawNode.mk ("pybamm.Event") pid (Attrs.eventA n ty) none none none none) =
        Except.error (PyErr.keyError ("expression")) := by
      simp [_reconstruct_epression_tree, _reconstruct_symbol, getPybammClass,
        resolveEvent, fromJson]
    refine ⟨hdec, ?_⟩
    intro md bm hrhs
    have hre : reconFields md = Except.error (PyErr.keyError ("expression")) := by
      simp only [reconFields, hrhs, hdec, exceptBindErr]
    simp only [load_model, hre, exceptBindErr]
  · intro pid attrs
    have hdec : _reconstruct_mesh
        (RawNode.mk ("pybamm.Mesh") pid attrs none none none none) =
        Except.error (PyErr.keyError ("sub_meshes")) := by
      simp [_reconstruct_mesh, rawToPost, _reconstruct_symbol, getPybammClass,
        resolveMesh, fromJson_meshC, fromJsonMesh]
    refine ⟨hdec, ?_⟩
    intro m ids modelId pyObj geo bm
    have hre : reconFields
        { pyObject := pyObj, pyId := modelId, name := m.name,
          options := m.options, bounds := m.bounds,
          concatenated_rhs := symbolEncoderDefault ids m.concatenated_rhs,
          concatenated_algebraic := symbolEncoderDefault ids m.concatenated_algebraic,
          concatenated_initial_conditions :=
            symbolEncoderDefault ids m.concatenated_initial_conditions,
          events := m.events.map (symbolEncoderDefault ids),
          mass_matrix := symbolEncoderDefault ids m.mass_matrix,
          mass_matrix_inv := symbolEncoderDefault ids m.mass_matrix_inv,
          mesh := some (RawNode.mk ("pybamm.Mesh") pid attrs none none none none),
          geometry := geo, variables_ := none }
        = Except.error (PyErr.keyError ("sub_meshes")) := by
      simp only [reconFields]
      rw [recon_symbolEncoder, recon_symbolEncoder, recon_symbolEncoder,
        mapExcept_encTree, recon_symbolEncoder, recon_symbolEncoder]
      simp only [exceptBindOk]
      rw [hdec]
      simp only [exceptBindErr]
    simp only [load_model, hre, exceptBindErr]

/-- C5 witness: the three concrete all-entries-missing composite records —
an addition record, an event record and a mesh record — each fail with the
key error of their missing structural entry, and model files carrying the
first and the last make `load_model` fail with the same errors. -/
theorem C5_malformed_composite_witness :
    _reconstruct_epression_tree
      (RawNode.mk ("pybamm.Addition") 7 (Attrs.binaryA ("+")) none none none none) =
      Except.error (PyErr.keyError ("children")) ∧
    _reconstruct_epression_tree
      (RawNode.mk ("pybamm.Event") 7 (Attrs.eventA ("cutoff") 0) none none none none) =
      Except.error (PyErr.keyError ("expression")) ∧
    _reconstruct_mesh (RawNode.mk ("pybamm.Mesh") 7 Attrs.meshA none none none none) =
      Except.error (PyErr.keyError ("sub_meshes")) ∧
    load_model
      { pyObject := some ("pybamm.lithium_ion.SPM"), pyId := 0, name := ("test"),
        options := [], bounds := [],
        concatenated_rhs :=
          RawNode.mk ("pybamm.Addition") 7 (Attrs.binaryA ("+")) none none none none,
        concatenated_algebraic := symbolEncoderDefault (fun _ => 0) (Sym.scalar 0),
        concatenated_initial_conditions := symbolEncoderDefault (fun _ => 0) (Sym.scalar 0),
        events := [],
        mass_matrix := symbolEncoderDefault (fun _ => 0) (Sym.scalar 1),
        mass_matrix_inv := symbolEncoderDefault (fun _ => 0) (Sym.scalar 1),
        mesh := none, geometry := none, variables_ := none }
      none = Except.error (PyErr.keyError ("children")) ∧
    load_model
      { pyObject := some ("pybamm.lithium_ion.SPM"), pyId := 0, name := ("test"),
        options := [], bounds := [],
        concatenated_rhs := symbolEncoderDefault (fun _ => 0) (Sym.scalar 1),
        concatenated_algebraic := symbolEncoderDefault (fun _ => 0) (Sym.scalar 0),
        concatenated_initial_conditions := symbolEncoderDefault (fun _ => 0) (Sym.scalar 0),
        events := List.map (symbolEncoderDefault (fun _ => 0)) [],
        mass_matrix := symbolEncoderDefault (fun _ => 0) (Sym.scalar 1),
        mass_matrix_inv := symbolEncoderDefault (fun _ => 0) (Sym.scalar 1),
        mesh := some (RawNode.mk ("pybamm.Mesh") 7 Attrs.meshA none none none none),
        geometry := none, variables_ := none }
      none = Except.error (PyErr.keyError ("sub_meshes")) :=
  ⟨(C5_malformed_composite.1 ("pybamm.Addition") 7 (Attrs.binaryA ("+")) (by decide)).1,
   (C5_malformed_composite.2.1 7 ("cutoff") 0).1,
   (C5_malformed_composite.2.2 7 Attrs.meshA).1,
   (C5_malformed_composite.1 ("pybamm.Addition") 7 (Attrs.binaryA ("+")) (by decide)).2
     { pyObject := some ("pybamm.lithium_ion.SPM"), pyId := 0, name := ("test"),
       options := [], bounds := [],
       concatenated_rhs :=
         RawNode.mk ("pybamm.Addition") 7 (Attrs.binaryA ("+")) none none none none,
       concatenated_algebraic := symbolEncoderDefault (fun _ => 0) (Sym.scalar 0),
       concatenated_initial_conditions := symbolEncoderDefault (fun _ => 0) (Sym.scalar 0),
       events := [],
       mass_matrix := symbolEncoderDefault (fun _ => 0) (Sym.scalar 1),
       mass_matrix_inv := symbolEncoderDefault (fun _ => 0) (Sym.scalar 1),
       mesh := none, geometry := none, variables_ := none }
     none rfl,
   (C5_malformed_composite.2.2 7 Attrs.meshA).2
     { cls := ("pybamm.lithium_ion.SPM"), name := ("test"), options := [],
       bounds := [], is_discretised := true,
       concatenated_rhs := Sym.scalar 1, concatenated_algebraic := Sym.scalar 0,
       concatenated_initial_conditions := Sym.scalar 0, events := [],
       mass_matrix := Sym.scalar 1, mass_matrix_inv := Sym.scalar 1,
       geometry := none, mesh := none, variables_ := none }
     (fun _ => 0) 0 (some ("pybamm.lithium_ion.SPM")) none none⟩

end PybammSerialise

namespace PybammSerialise

/-- C7: the `sub_meshes` mapping persisted by the mesh encoder contains an
entry under key `k` exactly when the mesh has a single-domain entry
`([k], sm)` whose domain name does not contain the substring `ghost cell`
(and that entry is the encoded `sm`): every ghost-cell sub-mesh and every
composite multi-domain key is omitted, every single-domain non-ghost entry
is retained. -/
theorem C7_mesh_filtering (mid : Nat) (smid : SubMesh → Nat) (m : Mesh) :
    ∃ L, (meshEncoderDefault mid smid m).sub_meshes = some L ∧
      ∀ (k : String) (r : RawNode),
        ((k, r) ∈ L ↔
          ∃ sm : SubMesh, ((([k] : List String), sm) ∈ m.entries ∧
            strContains k ("ghost cell") = false ∧ r = meshEncoderSubMesh smid sm)) := by
  refine ⟨_, meshEncoder_sub_meshes_eq mid smid m, ?_⟩
  intro k r
  constructor
  · intro hmem
    rw [List.mem_map] at hmem
    obtain ⟨kv, hkv, heq⟩ := hmem
    rw [keptSubMeshes, List.mem_filterMap] at hkv
    obtain ⟨e, he, hf⟩ := hkv
    by_cases hc : (e.1.length == 1 && !(strContains (e.1.headD ("")) ("ghost cell"))) = true
    · rw [if_pos hc] at hf
      rw [Bool.and_eq_true] at hc
      obtain ⟨hlen, hns⟩ := hc
      rw [beq_iff_eq] at hlen
      rw [Bool.not_eq_true'] at hns
      obtain ⟨x, hx⟩ := List.length_eq_one.mp hlen
      rw [Option.some.injEq] at hf
      subst hf
      rw [Prod.mk.injEq] at heq
      obtain ⟨hk1, hr1⟩ := heq
      refine ⟨e.2, ?_, ?_, ?_⟩
      · have hke : ([k] : List String) = e.1 := by
          rw [← hk1, hx]
          rfl
        rw [hke]
        exact he
      · rw [← hk1]
        exact hns
      · rw [← hr1]
    · rw [if_neg hc] at hf
      cases hf
  · rintro ⟨sm, hin, hg, rfl⟩
    rw [List.mem_map]
    refine ⟨(k, sm), ?_, rfl⟩
    rw [keptSubMeshes, List.mem_filterMap]
    refine ⟨((([k] : List String)), sm), hin, ?_⟩
    have hcond : ((([k] : List String)).length == 1 &&
        !(strContains ((([k] : List String)).headD ("")) ("ghost cell"))) = true := by
      simp [hg]
    rw [if_pos hcond]
    rfl

end PybammSerialise

namespace PybammSerialise

theorem exceptBindOkIff {α β : Type} (x : Except PyErr α) (f : α → Except PyErr β)
    (b : β) :
    (x >>= f) = Except.ok b ↔ ∃ a, x = Except.ok a ∧ f a = Except.ok b := by
  cases x with
  | error e => simp [exceptBindErr]
  | ok a => simp [exceptBindOk]

theorem deserialise_modelC_cls (p : String) (r : ReconModelDict) (m2 : Model)
    (h : deserialise (PyClass.modelC p) r = Except.ok m2) : m2.cls = p := by
  simp only [deserialise] at h
  rw [exceptBindOkIff] at h
  obtain ⟨rhs, _, h⟩ := h
  rw [exceptBindOkIff] at h
  obtain ⟨alg, _, h⟩ := h
  rw [exceptBindOkIff] at h
  obtain ⟨ics, _, h⟩ := h
  rw [exceptBindOkIff] at h
  obtain ⟨evs, _, h⟩ := h
  rw [exceptBindOkIff] at h
  obtain ⟨mm, _, h⟩ := h
  rw [exceptBindOkIff] at h
  obtain ⟨mmi, _, h⟩ := h
  rw [exceptBindOkIff] at h
  obtain ⟨meshVal, _, h⟩ := h
  rw [exceptBindOkIff] at h
  obtain ⟨varsVal, _, h⟩ := h
  rw [Except.ok.injEq] at h
  rw [← h]

/-- C8: target-variant selection in `load_model` — reconstruction of the
field set comes first, and then: a supplied `battery_model` takes
precedence (its `deserialise` is used, and when it is a model class the
loaded model carries that class, whatever the recorded tag says);
otherwise a `py/object` tag embedded in the file selects the class through
`_get_pybamm_class`; with neither available the call fails with the
no-target `TypeError`. -/
theorem C8_target_selection (md : ModelJson) (r : ReconModelDict)
    (h : reconFields md = Except.ok r) :
    (∀ bm, load_model md (some bm) = deserialise bm r) ∧
    (∀ p m2, load_model md (some (PyClass.modelC p)) = Except.ok m2 → m2.cls = p) ∧
    (∀ tag cls, md.pyObject = some tag →
       getPybammClassOfTag tag = Except.ok cls →
       load_model md none = deserialise cls r) ∧
    (md.pyObject = none →
       load_model md none = Except.error (PyErr.typeError
         ("The PyBaMM battery model to use has not been provided."))) := by
  have hload : ∀ bm, load_model md (some bm) = deserialise bm r := by
    intro bm
    simp only [load_model, h, exceptBindOk]
  refine ⟨hload, ?_, ?_, ?_⟩
  · intro p m2 hm2
    rw [hload] at hm2
    exact deserialise_modelC_cls p r m2 hm2
  · intro tag cls htag hcls
    simp only [load_model, h, exceptBindOk, htag, hcls]
  · intro hnone
    simp only [load_model, h, exceptBindOk, hnone]

/-- C8 witness: on a concrete saved file carrying the tag of the SPM
class, an explicitly supplied battery model of a different class wins;
without one, the embedded tag selects SPM; and a file with no tag fails
with the no-target `TypeError`. -/
theorem C8_target_selection_witness :
    (∀ m2, load_model
        (savedContent
          { cls := ("pybamm.lithium_ion.SPM"), name := ("test"), options := [],
            bounds := [], is_discretised := true,
            concatenated_rhs := Sym.scalar 1, concatenated_algebraic := Sym.scalar 0,
            concatenated_initial_conditions := Sym.scalar 2, events := [],
            mass_matrix := Sym.scalar 1, mass_matrix_inv := Sym.scalar 1,
            geometry := none, mesh := none, variables_ := none }
          (fun _ => 0) 0 0 (fun _ => 0) none none none)
        (some (PyClass.modelC ("pybamm.BaseBatteryModel"))) = Except.ok m2 →
      m2.cls = ("pybamm.BaseBatteryModel")) ∧
    load_model
      { pyObject := none, pyId := 0, name := ("test"), options := [], bounds := [],
        concatenated_rhs := symbolEncoderDefault (fun _ => 0) (Sym.scalar 1),
        concatenated_algebraic := symbolEncoderDefault (fun _ => 0) (Sym.scalar 0),
        concatenated_initial_conditions := symbolEncoderDefault (fun _ => 0) (Sym.scalar 2),
        events := [],
        mass_matrix := symbolEncoderDefault (fun _ => 0) (Sym.scalar 1),
        mass_matrix_inv := symbolEncoderDefault (fun _ => 0) (Sym.scalar 1),
        mesh := none, geometry := none, variables_ := none }
      none = Except.error (PyErr.typeError
        ("The PyBaMM battery model to use has not been provided.")) := by
  constructor
  · intro m2
    have hrec := reconFields_enc (fun _ => 0) (some ("pybamm.lithium_ion.SPM")) 0
      ("test") [] [] (Sym.scalar 1) (Sym.scalar 0) (Sym.scalar 2)
      (Sym.scalar 1) (Sym.scalar 1) [] none 0 (fun _ => 0) none none
    simp only [Option.map_none', List.map_nil] at hrec
    exact (C8_target_selection _ _ hrec).2.1 ("pybamm.BaseBatteryModel") m2
  · have hrec := reconFields_enc (fun _ => 0) none 0
      ("test") [] [] (Sym.scalar 1) (Sym.scalar 0) (Sym.scalar 2)
      (Sym.scalar 1) (Sym.scalar 1) [] none 0 (fun _ => 0) none none
    simp only [Option.map_none', List.map_nil] at hrec
    exact (C8_target_selection _ _ hrec).2.2.2 rfl

end PybammSerialise

namespace PybammSerialise

theorem exceptPureEq {α : Type} (a : α) :
    (pure a : Except PyErr α) = Except.ok a := rfl

/-- C9: reconstruction mutates the record it is given — whenever decoding
a record with a `children` entry succeeds, the final state of that record
holds the reconstructed live objects written over every children slot;
whenever decoding a record with an `expression` entry succeeds, the
expression slot holds the reconstructed live object; whenever mesh
reconstruction succeeds on a record with a `sub_meshes` entry, every
sub-mesh slot holds its reconstructed live sub-mesh; and there is an input
record whose final state differs from the record as given — the decoder
does not leave its input unchanged. -/
theorem C9_in_place_mutation :
    (∀ (tag : String) (pid : Nat) (attrs : Attrs) (cs : List RawNode)
       (ic ex : Option RawNode) (sub : Option (List (String × RawNode)))
       (o : PyObj) (post : PostNode),
       _reconstruct_epression_tree (RawNode.mk tag pid attrs (some cs) ic ex sub) =
         Except.ok (o, post) →
       ∃ objs, reconstructChildren cs = Except.ok objs ∧
         post.children = some (objs.map PVal.obj)) ∧
    (∀ (tag : String) (pid : Nat) (attrs : Attrs) (e : RawNode)
       (ic : Option RawNode) (sub : Option (List (String × RawNode)))
       (o : PyObj) (post : PostNode),
       _reconstruct_epression_tree (RawNode.mk tag pid attrs none ic (some e) sub) =
         Except.ok (o, post) →
       ∃ eo : PyObj × PostNode, _reconstruct_epression_tree e = Except.ok eo ∧
         post.expression = some (PVal.obj eo.1)) ∧
    (∀ (tag : String) (pid : Nat) (attrs : Attrs)
       (ch : Option (List RawNode)) (ic ex : Option RawNode)
       (entries : List (String × RawNode)) (o : PyObj) (post : PostNode),
       _reconstruct_mesh (RawNode.mk tag pid attrs ch ic ex (some entries)) =
         Except.ok (o, post) →
       ∃ ne, mapExcept (fun kv => do
           let sm ← _reconstruct_symbol (rawToPost kv.2)
           pure (kv.1, PVal.obj sm)) entries = Except.ok ne ∧
         post.sub_meshes = some ne) ∧
    (∃ (node : RawNode) (o : PyObj) (post : PostNode),
       _reconstruct_epression_tree node = Except.ok (o, post) ∧
       post ≠ rawToPost node) := by
  refine ⟨?_, ?_, ?_, ?_⟩
  · intro tag pid attrs cs ic ex sub o post h
    rw [_reconstruct_epression_tree] at h
    rw [exceptBindOkIff] at h
    obtain ⟨objs, hobjs, h⟩ := h
    rw [exceptBindOkIff] at h
    obtain ⟨obj, _, h⟩ := h
    rw [exceptPureEq, Except.ok.injEq, Prod.mk.injEq] at h
    obtain ⟨_, hpost⟩ := h
    refine ⟨objs, hobjs, ?_⟩
    rw [← hpost]
  · intro tag pid attrs e ic sub o post h
    rw [_reconstruct_epression_tree] at h
    rw [exceptBindOkIff] at h
    obtain ⟨eo, heo, h⟩ := h
    rw [exceptBindOkIff] at h
    obtain ⟨obj, _, h⟩ := h
    rw [exceptPureEq, Except.ok.injEq, Prod.mk.injEq] at h
    obtain ⟨_, hpost⟩ := h
    refine ⟨eo, heo, ?_⟩
    rw [← hpost]
  · intro tag pid attrs ch ic ex entries o post h
    rw [_reconstruct_mesh] at h
    rw [exceptBindOkIff] at h
    obtain ⟨ne, hne, h⟩ := h
    rw [exceptBindOkIff] at h
    obtain ⟨obj, _, h⟩ := h
    rw [exceptPureEq, Except.ok.injEq, Prod.mk.injEq] at h
    obtain ⟨_, hpost⟩ := h
    refine ⟨ne, hne, ?_⟩
    rw [← hpost]
  · refine ⟨symbolEncoderDefault (fun _ => 0) (Sym.addition (Sym.scalar 1) (Sym.scalar 2)),
      PyObj.sym (Sym.addition (Sym.scalar 1) (Sym.scalar 2)),
      encPost (fun _ => 0) (Sym.addition (Sym.scalar 1) (Sym.scalar 2)),
      recon_symbolEncoder (fun _ => 0) (Sym.addition (Sym.scalar 1) (Sym.scalar 2)), ?_⟩
    intro hcontra
    simp [encPost, rawToPost, symbolEncoderDefault] at hcontra

/-- C9 witness: the decoded two-child addition record has both children
slots overwritten with the reconstructed live scalars. -/
theorem C9_in_place_mutation_witness :
    ∃ objs,
      reconstructChildren
        [symbolEncoderDefault (fun _ => 0) (Sym.scalar 1),
         symbolEncoderDefault (fun _ => 0) (Sym.scalar 2)] = Except.ok objs ∧
      (encPost (fun _ => 0) (Sym.addition (Sym.scalar 1) (Sym.scalar 2))).children =
        some (objs.map PVal.obj) :=
  C9_in_place_mutation.1 ("pybamm.Addition") 0 (Attrs.binaryA ("+"))
    [symbolEncoderDefault (fun _ => 0) (Sym.scalar 1),
     symbolEncoderDefault (fun _ => 0) (Sym.scalar 2)]
    none none none
    (PyObj.sym (Sym.addition (Sym.scalar 1) (Sym.scalar 2)))
    (encPost (fun _ => 0) (Sym.addition (Sym.scalar 1) (Sym.scalar 2)))
    (recon_symbolEncoder (fun _ => 0) (Sym.addition (Sym.scalar 1) (Sym.scalar 2)))

end PybammSerialise

namespace PybammSerialise

theorem stringDataInj (a b : String) (h : a.data = b.data) : a = b := by
  cases a with
  | mk d1 =>
    cases b with
    | mk d2 =>
      simp only [] at h
      rw [h]

theorem savedPath_now_inj (nm now1 now2 : String)
    (h : nm ++ ("_") ++ now1 ++ (".json") = nm ++ ("_") ++ now2 ++ (".json")) :
    now1 = now2 := by
  have hd := congrArg String.data h
  simp only [String.data_append] at hd
  rw [List.append_assoc, List.append_assoc, List.append_assoc, List.append_assoc] at hd
  have h1 := List.append_cancel_left hd
  have h2 := List.append_cancel_left h1
  have h3 := List.append_cancel_right h2
  exact stringDataInj now1 now2 h3

/-- C10: the file written by `save_model` always has the json suffix
appended to the chosen name; when no name is supplied the name is derived
from the model name, an underscore and the formatted current date-time, so
two no-filename saves of the same model at different formatted times write
to different files. -/
theorem C10_file_naming (m : Model) (msh : Option Mesh)
    (vars : Option (List (String × Sym))) (ids : Sym → Nat)
    (modelId mid : Nat) (smid : SubMesh → Nat) :
    (∀ fname now sf,
       save_model m msh vars (some fname) ids modelId mid smid now = Except.ok sf →
       sf.path = fname ++ (".json")) ∧
    (∀ now sf,
       save_model m msh vars none ids modelId mid smid now = Except.ok sf →
       sf.path = m.name ++ ("_") ++ now ++ (".json")) ∧
    (∀ now1 now2 sf1 sf2, now1 ≠ now2 →
       save_model m msh vars none ids modelId mid smid now1 = Except.ok sf1 →
       save_model m msh vars none ids modelId mid smid now2 = Except.ok sf2 →
       sf1.path ≠ sf2.path) := by
  have hok : ∀ fname now sf,
      save_model m msh vars fname ids modelId mid smid now = Except.ok sf →
      sf.path = savedPath m fname now := by
    intro fname now sf hsf
    cases hd : m.is_discretised with
    | false =>
      simp [save_model, hd] at hsf
    | true =>
      rw [save_model_eq m msh vars fname ids modelId mid smid now hd] at hsf
      rw [Except.ok.injEq] at hsf
      rw [← hsf]
  refine ⟨?_, ?_, ?_⟩
  · intro fname now sf hsf
    rw [hok (some fname) now sf hsf]
    rfl
  · intro now sf hsf
    rw [hok none now sf hsf]
    rfl
  · intro now1 now2 sf1 sf2 hne hsf1 hsf2 hpath
    apply hne
    apply savedPath_now_inj m.name now1 now2
    have e1 : sf1.path = m.name ++ ("_") ++ now1 ++ (".json") := hok none now1 sf1 hsf1
    have e2 : sf2.path = m.name ++ ("_") ++ now2 ++ (".json") := hok none now2 sf2 hsf2
    rw [e1, e2] at hpath
    exact hpath

/-- C10 witness: concrete saves — the supplied name gets the json suffix,
the default name is built from the model name and the time stamp, and two
distinct time stamps give two distinct files. -/
theorem C10_file_naming_witness :
    (∀ sf, save_model
        { cls := ("pybamm.lithium_ion.SPM"), name := ("test"), options := [],
          bounds := [], is_discretised := true,
          concatenated_rhs := Sym.scalar 1, concatenated_algebraic := Sym.scalar 0,
          concatenated_initial_conditions := Sym.scalar 2, events := [],
          mass_matrix := Sym.scalar 1, mass_matrix_inv := Sym.scalar 1,
          geometry := none, mesh := none, variables_ := none }
        none none (some ("myfile")) (fun _ => 0) 0 0 (fun _ => 0)
        ("2024_01_01-AM10_00_00") = Except.ok sf →
      sf.path = ("myfile") ++ (".json")) ∧
    (∀ sf1 sf2,
      save_model
        { cls := ("pybamm.lithium_ion.SPM"), name := ("test"), options := [],
          bounds := [], is_discretised := true,
          concatenated_rhs := Sym.scalar 1, concatenated_algebraic := Sym.scalar 0,
          concatenated_initial_conditions := Sym.scalar 2, events := [],
          mass_matrix := Sym.scalar 1, mass_matrix_inv := Sym.scalar 1,
          geometry := none, mesh := none, variables_ := none }
        none none none (fun _ => 0) 0 0 (fun _ => 0)
        ("2024_01_01-AM10_00_00") = Except.ok sf1 →
      save_model
        { cls := ("pybamm.lithium_ion.SPM"), name := ("test"), options := [],
          bounds := [], is_discretised := true,
          concatenated_rhs := Sym.scalar 1, concatenated_algebraic := Sym.scalar 0,
          concatenated_initial_conditions := Sym.scalar 2, events := [],
          mass_matrix := Sym.scalar 1, mass_matrix_inv := Sym.scalar 1,
          geometry := none, mesh := none, variables_ := none }
        none none none (fun _ => 0) 0 0 (fun _ => 0)
        ("2024_01_01-AM10_00_05") = Except.ok sf2 →
      sf1.path ≠ sf2.path) :=
  ⟨fun sf h => (C10_file_naming
      { cls := ("pybamm.lithium_ion.SPM"), name := ("test"), options := [],
        bounds := [], is_discretised := true,
        concatenated_rhs := Sym.scalar 1, concatenated_algebraic := Sym.scalar 0,
        concatenated_initial_conditions := Sym.scalar 2, events := [],
        mass_matrix := Sym.scalar 1, mass_matrix_inv := Sym.scalar 1,
        geometry := none, mesh := none, variables_ := none }
      none none (fun _ => 0) 0 0 (fun _ => 0)).1 ("myfile")
      ("2024_01_01-AM10_00_00") sf h,
   fun sf1 sf2 h1 h2 => (C10_file_naming
      { cls := ("pybamm.lithium_ion.SPM"), name := ("test"), options := [],
        bounds := [], is_discretised := true,
        concatenated_rhs := Sym.scalar 1, concatenated_algebraic := Sym.scalar 0,
        concatenated_initial_conditions := Sym.scalar 2, events := [],
        mass_matrix := Sym.scalar 1, mass_matrix_inv := Sym.scalar 1,
        geometry := none, mesh := none, variables_ := none }
      none none (fun _ => 0) 0 0 (fun _ => 0)).2.2
      ("2024_01_01-AM10_00_00") ("2024_01_01-AM10_00_05") sf1 sf2
      (by decide) h1 h2⟩

end PybammSerialise
